import Mathlib

/-!
# Auto-framing filter (StreamFX): embedding and verification

The development embeds `source/filters/filter-autoframing.cpp`,
`source/nvidia/ar/nvidia-ar-facedetection.cpp`, the constructor of
`source/nvidia/ar/nvidia-ar.cpp` and the constructor of
`source/nvidia/ar/nvidia-ar-gs-texture.cpp`.

Conventions of the embedding:

* `float` and `double` values are exact rationals (`ℚ`); the only non-finite value the
  code writes itself, the `+infinity` the bounding loop starts from, is explicit (`fbound`).
* `uint32_t`, `uint8_t` and `size_t` values are naturals, reduced where the code narrows.
* An object held through a `std::shared_ptr` is an `Option`; `none` is the null pointer.
* A member function that may throw returns an `outcome`: the state it leaves behind and the
  exception that left it, if any.
* The vendor SDK, CUDA and the host are not part of the sources; the answers they give are
  parameters (`sdk`, `host`), and the calls made to them are recorded, in order, in the
  `events` field of the filter state.
-/

set_option autoImplicit false
set_option linter.dupNamespace false

/-- C++ exceptions that cross the embedded interfaces. -/
inductive exception
  | logic_error (what : String)
  | invalid_argument (what : String)
  | out_of_range (what : String)
  | runtime_error (what : String)
  | ar_error (code : Int)
  deriving DecidableEq, Repr

/-- State left behind by a call together with the exception that left it, if any. -/
structure outcome (σ : Type) where
  state : σ
  thrown : Option exception

/-- A call that returned normally. -/
def outcome.ok {σ : Type} (s : σ) : outcome σ := ⟨s, none⟩

/-- A call that was left by an exception. -/
def outcome.throw {σ : Type} (s : σ) (e : exception) : outcome σ := ⟨s, some e⟩

/-! ## Graphics types of the host -/

namespace gs

/-- Colour formats of the host (`enum gs_color_format`). -/
inductive color_format
  | GS_UNKNOWN | GS_A8 | GS_R8 | GS_RGBA | GS_BGRX | GS_BGRA | GS_R10G10B10A2
  | GS_RGBA16 | GS_R16 | GS_RGBA16F | GS_RGBA32F | GS_RG16F | GS_RG32F
  | GS_R16F | GS_R32F | GS_DXT1 | GS_DXT3 | GS_DXT5 | GS_R8G8
  deriving DecidableEq, Repr

/-- A `gs::texture`, as far as the tracker looks at it. -/
structure texture where
  width : Nat
  height : Nat
  format : color_format
  deriving DecidableEq, Repr

/-- A `gs::rendertarget`: its colour format and the texture of the last render, if any. -/
structure rendertarget where
  format : color_format
  _texture : Option texture
  deriving DecidableEq, Repr

/-- Member `gs::rendertarget::get_texture`. -/
def rendertarget.get_texture (rt : rendertarget) : Option texture := rt._texture

/-- Member `gs::rendertarget::get_color_format`. -/
def rendertarget.get_color_format (rt : rendertarget) : color_format := rt.format

end gs

/-! ## `nvidia::ar` -/

namespace nvidia.ar

/-- Result code of the SDK (`enum class result : int32_t`); `SUCCESS` is zero. -/
abbrev result := Int

/-- Value `result::SUCCESS`. -/
def result.SUCCESS : result := 0

/-- Type `rect_t = vec4<float>`. -/
structure rect_t where
  x : ℚ
  y : ℚ
  z : ℚ
  w : ℚ
  deriving DecidableEq, Repr

/-- Struct `boundaries`; the `rects` pointer aliases `facedetection::_rects`. -/
structure boundaries where
  current : Nat
  maximum : Nat
  deriving DecidableEq, Repr

/-- Class `ar`, as far as the tracker looks at it: the two resolved paths. -/
structure ar where
  _sdk_path : String
  _model_path : String
  deriving DecidableEq, Repr

/-- Member `ar::get_model_path`. -/
def ar.get_model_path (self : ar) : String := self._model_path

/-- Member `ar::get_sdk_path`. -/
def ar.get_sdk_path (self : ar) : String := self._sdk_path

/-- Answers of the vendor SDK and of the device to the calls one operation makes. -/
structure sdk where
  /-- the loaded library object, `ar::get()` -/
  ar_get : ar
  /-- result of creating the feature handle in the `feature` constructor -/
  AR_Create : result
  AR_SetU32 : String → Nat → result
  AR_SetObject : String → result
  AR_SetF32Array : String → Nat → result
  AR_SetCudaStream : String → result
  AR_SetString : String → String → result
  AR_Load : result
  AR_Run : result
  /-- contents of the rectangle buffer after a successful `AR_Run` -/
  run_rects : List rect_t
  /-- contents of the confidence buffer after a successful `AR_Run` -/
  run_confidence : List ℚ
  /-- value of `boundaries::current` after a successful `AR_Run` -/
  run_current : Nat
  /-- exception raised while the input texture and images are (re)created, if any -/
  input_create : gs.texture → Option exception
  /-- exception raised while the frame is copied and transferred to the input image, if any -/
  input_update : Option exception

/-- Class `feature`: the handle, seen through the configuration it has accepted. -/
structure feature where
  Temporal : Option Nat
  ModelDir : Option String
  CUDAStream : Bool
  loaded : Bool
  deriving DecidableEq, Repr

/-- Class `facedetection`. -/
structure facedetection where
  _feature : feature
  _ar : ar
  _loaded : Bool
  _rects : List rect_t
  _rects_confidence : List ℚ
  _bboxes : boundaries
  _input_texture : Option gs.texture
  _input_mapped : Option gs.texture
  _input_buffer : Option gs.texture
  _input : Option gs.texture
  deriving DecidableEq, Repr

/-- Member `feature::set(name, uint32_t)` on the `Temporal` configuration. -/
def feature.set_Temporal (k : sdk) (self : feature) (value : Nat) : outcome feature :=
  let res := k.AR_SetU32 "NvAR_Parameter_Config_Temporal" value
  if res ≠ result.SUCCESS then outcome.throw self (exception.ar_error res)
  else outcome.ok { self with Temporal := some value }

/-- Member `facedetection::enable_temporal_tracking`. -/
def facedetection.enable_temporal_tracking (k : sdk) (self : facedetection) (value : Bool) :
    outcome facedetection :=
  if self._loaded then
    outcome.throw self (exception.logic_error "Can't change configuration after initialization.")
  else
    let r := self._feature.set_Temporal k (if value then 1 else 0)
    ⟨{ self with _feature := r.state }, r.thrown⟩

/-- Member `facedetection::set_limit`. -/
def facedetection.set_limit (k : sdk) (self : facedetection) (limit : Nat) :
    outcome facedetection :=
  if self._loaded then
    outcome.throw self (exception.logic_error "Can't change configuration after initialization.")
  else if limit = 0 then
    outcome.throw self (exception.invalid_argument "limit must be greater or equal to 1")
  else
    -- Resize Data, Update Structure (`maximum` is a `uint8_t`)
    let s1 : facedetection :=
      { self with
        _rects := List.replicate limit ⟨0, 0, 0, 0⟩
        _rects_confidence := List.replicate limit 0
        _bboxes := { current := 0, maximum := limit % 2 ^ 8 } }
    -- Update Object
    let res := k.AR_SetObject "NvAR_Parameter_Output_BoundingBoxes"
    if res ≠ result.SUCCESS then outcome.throw s1 (exception.ar_error res)
    else
      let res := k.AR_SetF32Array "NvAR_Parameter_Output_BoundingBoxesConfidence" limit
      if res ≠ result.SUCCESS then outcome.throw s1 (exception.ar_error res)
      else outcome.ok s1

/-- Constructor `facedetection::facedetection`: the new object, or the exception that
left the constructor. -/
def facedetection.ctor (k : sdk) : Except exception facedetection :=
  -- `_feature = std::make_shared<feature>(NVAR_FEATURE_FACEDETECTION)`
  if k.AR_Create ≠ result.SUCCESS then Except.error (exception.ar_error k.AR_Create)
  else
    let self : facedetection :=
      { _feature := { Temporal := none, ModelDir := none, CUDAStream := false, loaded := false }
        _ar := k.ar_get
        _loaded := false
        _rects := []
        _rects_confidence := []
        _bboxes := { current := 0, maximum := 0 }
        _input_texture := none
        _input_mapped := none
        _input_buffer := none
        _input := none }
    -- Set up initial configuration
    let r1 := self.set_limit k 1
    match r1.thrown with
    | some e => Except.error e
    | none =>
      let r2 := r1.state.enable_temporal_tracking k true
      match r2.thrown with
      | some e => Except.error e
      | none => Except.ok r2.state

/-- Member `facedetection::load`. -/
def facedetection.load (k : sdk) (self : facedetection) : outcome facedetection :=
  let models_path := self._ar.get_model_path
  let res := k.AR_SetCudaStream "NvAR_Parameter_Config_CUDAStream"
  if res ≠ result.SUCCESS then outcome.throw self (exception.ar_error res)
  else
    let s1 : facedetection := { self with _feature := { self._feature with CUDAStream := true } }
    let res := k.AR_SetString "NvAR_Parameter_Config_ModelDir" models_path
    if res ≠ result.SUCCESS then outcome.throw s1 (exception.ar_error res)
    else
      let s2 : facedetection :=
        { s1 with _feature := { s1._feature with ModelDir := some models_path } }
      -- `_feature->load()`
      let res := k.AR_Load
      if res ≠ result.SUCCESS then outcome.throw s2 (exception.ar_error res)
      else outcome.ok { s2 with _feature := { s2._feature with loaded := true } }

/-- Member `facedetection::track`. Each input object is identified with the descriptor of the
texture it was created for. -/
def facedetection.track (k : sdk) (self : facedetection) (ptexture : Option gs.texture) :
    outcome facedetection :=
  match ptexture with
  | none => outcome.throw self (exception.invalid_argument "texture is nullptr")
  | some tex =>
    -- Check if our input is still valid, and if it is not, update it.
    let invalid : Bool :=
      match self._input_texture with
      | none => true
      | some t => t.width ≠ tex.width || t.height ≠ tex.height || t.format ≠ tex.format
    let reset : facedetection :=
      { self with _input_mapped := none, _input_texture := none, _input_buffer := none,
                  _input := none }
    let r1 : outcome facedetection :=
      if invalid then
        match k.input_create tex with
        | some e => outcome.throw reset e
        | none =>
          let res := k.AR_SetObject "NvAR_Parameter_Input_Image"
          if res ≠ result.SUCCESS then outcome.throw reset (exception.ar_error res)
          else
            outcome.ok
              { self with _input_mapped := some tex, _input_texture := some tex,
                          _input := some tex, _input_buffer := some tex }
      else outcome.ok self
    match r1.thrown with
    | some e => outcome.throw r1.state e
    | none =>
      -- Update Buffers.
      match k.input_update with
      | some e => outcome.throw r1.state e
      | none =>
        -- Track (`current` is a `uint8_t`)
        if k.AR_Run ≠ result.SUCCESS then outcome.throw r1.state (exception.ar_error k.AR_Run)
        else
          outcome.ok
            { r1.state with
              _rects := k.run_rects
              _rects_confidence := k.run_confidence
              _bboxes := { r1.state._bboxes with current := k.run_current % 2 ^ 8 } }

/-- Member `facedetection::count`. -/
def facedetection.count (self : facedetection) : Nat := self._bboxes.current

/-- Member `facedetection::at(index, confidence)`: the rectangle and the confidence written
through the reference, or the exception thrown. -/
def facedetection.at (self : facedetection) (index : Nat) : Except exception (rect_t × ℚ) :=
  if self._bboxes.current = 0 then Except.error (exception.runtime_error "no tracked faces")
  else if index > self._bboxes.current then
    Except.error (exception.out_of_range "index too large")
  else
    match self._rects[index]? with
    | none => Except.error (exception.out_of_range "vector::at")
    | some ref =>
      match self._rects_confidence[index]? with
      | none => Except.error (exception.out_of_range "vector::at")
      | some confidence => Except.ok (ref, confidence)

/-- Member `std::filesystem::path::append` with a relative name, on a POSIX system. -/
def path_append (p : String) (name : String) : String :=
  if p = "" then name
  else if p.back = '/' then p ++ name
  else p ++ "/" ++ name

/-- Constructor `ar::ar`, non-Windows branch. The parameter `getenv` is the process
environment; `load` is the outcome of loading the library at the given path and resolving
its symbols. -/
def ar.ctor (getenv : String → Option String) (load : String → Option exception) :
    Except exception ar :=
  -- `_sdk_path("")`, `_model_path` default-constructed
  let self : ar := { _sdk_path := "", _model_path := "" }
  -- Find out where the SDK is located at.
  let self : ar :=
    match getenv "NV_AR_SDK_PATH" with
    | some env => { self with _sdk_path := env }
    | none => self
  -- Find out where the models are located at.
  let self : ar :=
    match getenv "NVAR_MODEL_PATH" with
    | some env => { self with _sdk_path := env }
    | none => { self with _model_path := path_append self._sdk_path "models" }
  -- Attempt to load the library. Load Symbols
  match load (path_append self._sdk_path "libnvARPose.so") with
  | some e => Except.error e
  | none => Except.ok self

/-- Enumeration `cv_pixel_format`. -/
inductive cv_pixel_format
  | UNKNOWN | Y | A | YA | RGB | BGR | RGBA | BGRA | YUV420 | YUV422
  deriving DecidableEq, Repr

/-- Enumeration `cv_component_type`. -/
inductive cv_component_type
  | UNKNOWN | UINT8 | UINT16 | INT16 | FLOAT16 | UINT32 | INT32 | FLOAT32 | UINT64 | INT64
  | FLOAT64
  deriving DecidableEq, Repr

/-- Number of components per pixel of an interleaved pixel format: one per letter of the
enumerator; the formats without a fixed count per pixel give 0. -/
def cv_pixel_format.components : cv_pixel_format → Nat
  | cv_pixel_format.Y => 1
  | cv_pixel_format.A => 1
  | cv_pixel_format.YA => 2
  | cv_pixel_format.RGB => 3
  | cv_pixel_format.BGR => 3
  | cv_pixel_format.RGBA => 4
  | cv_pixel_format.BGRA => 4
  | _ => 0

/-- Bytes of one component of a component type: the width in the enumerator, in bytes. -/
def cv_component_type.bytes : cv_component_type → Nat
  | cv_component_type.UNKNOWN => 0
  | cv_component_type.UINT8 => 1
  | cv_component_type.UINT16 => 2
  | cv_component_type.INT16 => 2
  | cv_component_type.FLOAT16 => 2
  | cv_component_type.UINT32 => 4
  | cv_component_type.INT32 => 4
  | cv_component_type.FLOAT32 => 4
  | cv_component_type.UINT64 => 8
  | cv_component_type.INT64 => 8
  | cv_component_type.FLOAT64 => 8

/-- First switch of the `gstexture` constructor: `pixfmt` and `pitch_size`, `none` for the
`default:` case. -/
def gstexture.detect_pixel_format : gs.color_format → Option (cv_pixel_format × Nat)
  | gs.color_format.GS_A8 => some (cv_pixel_format.A, 1)
  | gs.color_format.GS_R8 => some (cv_pixel_format.Y, 1)
  | gs.color_format.GS_R16 => some (cv_pixel_format.Y, 1)
  | gs.color_format.GS_R16F => some (cv_pixel_format.Y, 1)
  | gs.color_format.GS_R32F => some (cv_pixel_format.Y, 1)
  | gs.color_format.GS_R8G8 => some (cv_pixel_format.YA, 2)
  | gs.color_format.GS_RG16F => some (cv_pixel_format.YA, 2)
  | gs.color_format.GS_RG32F => some (cv_pixel_format.YA, 2)
  | gs.color_format.GS_RGBA => some (cv_pixel_format.RGBA, 4)
  | gs.color_format.GS_RGBA16 => some (cv_pixel_format.RGBA, 4)
  | gs.color_format.GS_RGBA16F => some (cv_pixel_format.RGBA, 4)
  | gs.color_format.GS_RGBA32F => some (cv_pixel_format.RGBA, 4)
  | gs.color_format.GS_BGRX => some (cv_pixel_format.BGRA, 4)
  | gs.color_format.GS_BGRA => some (cv_pixel_format.BGRA, 4)
  | _ => none

/-- Second switch of the `gstexture` constructor: `cmptyp`, `none` for the `default:` case. -/
def gstexture.detect_component_type : gs.color_format → Option cv_component_type
  | gs.color_format.GS_R8 => some cv_component_type.UINT8
  | gs.color_format.GS_A8 => some cv_component_type.UINT8
  | gs.color_format.GS_R8G8 => some cv_component_type.UINT8
  | gs.color_format.GS_RGBA => some cv_component_type.UINT8
  | gs.color_format.GS_BGRX => some cv_component_type.UINT8
  | gs.color_format.GS_BGRA => some cv_component_type.UINT8
  | gs.color_format.GS_R16 => some cv_component_type.UINT16
  | gs.color_format.GS_RGBA16 => some cv_component_type.UINT16
  | gs.color_format.GS_R16F => some cv_component_type.FLOAT16
  | gs.color_format.GS_RG16F => some cv_component_type.FLOAT16
  | gs.color_format.GS_RGBA16F => some cv_component_type.FLOAT16
  | gs.color_format.GS_R32F => some cv_component_type.FLOAT32
  | gs.color_format.GS_RG32F => some cv_component_type.FLOAT32
  | gs.color_format.GS_RGBA32F => some cv_component_type.FLOAT32
  | _ => none

/-- Class `gstexture`: the texture, the size in bytes of the device memory `_memory`, and
the pitch, pixel format and component type handed to `CVImage_Init`. -/
structure gstexture where
  _texture : gs.texture
  _memory : Nat
  pitch : Nat
  pixel_format : cv_pixel_format
  component_type : cv_component_type
  deriving DecidableEq, Repr

/-- Constructor `gstexture::gstexture`; `init` is the result of `CVImage_Init`. The `size_t`
products wrap at 64 bits. -/
def gstexture.ctor (init : result) (texture : gs.texture) : Except exception gstexture :=
  -- Detect Pixel Format and Pitch size.
  match gstexture.detect_pixel_format texture.format with
  | none => Except.error (exception.runtime_error "Texture Format not supported.")
  | some (pixfmt, pitch_size) =>
    -- Detect Component Type
    match gstexture.detect_component_type texture.format with
    | none => Except.error (exception.runtime_error "Texture Format not supported.")
    | some cmptyp =>
      -- Create buffers and image.
      let pitch : Nat := (pitch_size * texture.width) % 2 ^ 64
      let memory : Nat := (pitch * texture.height) % 2 ^ 64
      if init ≠ result.SUCCESS then Except.error (exception.ar_error init)
      else
        Except.ok
          { _texture := texture, _memory := memory, pitch := pitch, pixel_format := pixfmt,
            component_type := cmptyp }

end nvidia.ar

/-! ## `streamfx::filter::autoframing` -/

namespace streamfx.filter.autoframing

open nvidia.ar

/-- Constant `ST_MAXIMUM_REGIONS`. -/
def ST_MAXIMUM_REGIONS : Nat := 8

/-- Enumeration `engine`, held as its underlying `int` value: `update` stores whatever
integer the settings carry. -/
structure engine where
  val : Int
  deriving DecidableEq, Repr

/-- Enumerator `engine::AUTOMATIC`. -/
def engine.AUTOMATIC : engine := ⟨0⟩

/-- Enumerator `engine::NVIDIA`. -/
def engine.NVIDIA : engine := ⟨1⟩

/-- Conversion `static_cast<engine>(int64_t)`: narrowing to the 32-bit underlying type. -/
def engine.of_int64 (v : Int) : engine := ⟨(v + 2 ^ 31) % 2 ^ 32 - 2 ^ 31⟩

/-- Struct `rect` through its `(x, y, w, h)` members. -/
structure rect where
  x : ℚ
  y : ℚ
  w : ℚ
  h : ℚ
  deriving DecidableEq, Repr

/-- Member `rect::left`, the same storage as `x`. -/
def rect.left (r : rect) : ℚ := r.x

/-- Member `rect::top`, the same storage as `y`. -/
def rect.top (r : rect) : ℚ := r.y

/-- Member `rect::right`, the same storage as `w`. -/
def rect.right (r : rect) : ℚ := r.w

/-- Member `rect::bottom`, the same storage as `h`. -/
def rect.bottom (r : rect) : ℚ := r.h

/-- A float coordinate of the local `boundary`: finite, or the `+infinity` it is
initialised with. -/
inductive fbound
  | inf
  | fin (v : ℚ)
  deriving DecidableEq, Repr

/-- Comparison `v < b` of a finite float with a boundary coordinate. -/
def fbound.gt (b : fbound) (v : ℚ) : Bool :=
  match b with
  | fbound.inf => true
  | fbound.fin c => decide (v < c)

/-- Statement `b -= p` on a boundary coordinate. -/
def fbound.sub (b : fbound) (p : ℚ) : fbound :=
  match b with
  | fbound.inf => fbound.inf
  | fbound.fin c => fbound.fin (c - p)

/-- Finite value of a boundary coordinate. The coordinate is `+infinity` only when the loop
ran over no region, which the guard `_regions.size() > 0` excludes
(`perform_boundary_cons`). -/
def fbound.val (b : fbound) : ℚ :=
  match b with
  | fbound.inf => 0
  | fbound.fin c => c

/-- The local `rect boundary` of `perform`, through its `(left, top, right, bottom)` members. -/
structure boundary where
  left : fbound
  top : fbound
  right : fbound
  bottom : fbound
  deriving DecidableEq, Repr

/-- Calls made to the device, the SDK and the host, as recorded in the filter state. -/
inductive event
  | cuda_context_enter
  | cuda_context_synchronize
  | cuda_stream_synchronize
  | detector_create
  | detector_release
  | detector_track
  | ar_release
  | cobs_release
  | capture_release
  | process_filter_begin (granted : Bool)
  | process_filter_end
  | skip_video_filter
  | draw
  deriving DecidableEq, Repr

/-- One vertex of the quad in `_vb`: its position and its first texture coordinate. -/
structure vertex where
  position : ℚ × ℚ × ℚ
  uv : ℚ × ℚ
  deriving DecidableEq, Repr

/-- Struct `autoframing_instance::tnvidia`. -/
structure tnvidia where
  available : Bool
  _cobs : Option Unit
  _ar : Option ar
  _detector : Option facedetection
  deriving DecidableEq, Repr

/-- Class `autoframing_instance`. -/
structure autoframing_instance where
  _size : Nat × Nat
  _vb : List vertex
  _capture : Option gs.rendertarget
  _capture_fresh : Bool
  _force_reinit : Bool
  _track_groups : Bool
  _padding : ℚ × ℚ
  _offset : ℚ × ℚ
  _engine : engine
  _last_engine : engine
  _nvidia : tnvidia
  _regions : List rect
  _frame : rect
  /-- calls made to the device, the SDK and the host so far, oldest first -/
  events : List event
  deriving DecidableEq, Repr

/-- The settings object (`obs_data_t`) through the keys `update` reads. -/
structure obs_data where
  Tracking_Mode : Int
  Layout_Padding_X : String
  Layout_Padding_Y : String
  Layout_Offset_X : String
  Layout_Offset_Y : String
  Advanced_Engine : Int
  deriving DecidableEq, Repr

/-- Records one call. -/
def autoframing_instance.emit (self : autoframing_instance) (e : event) : autoframing_instance :=
  { self with events := self.events ++ [e] }

/-- Call `std::vector<rect>::resize(n)`: new elements are value-initialised. -/
def resize (v : List rect) (n : Nat) : List rect :=
  v.take n ++ List.replicate (n - v.length) ⟨0, 0, 0, 0⟩

/-- Library call `strrchr(text, c)`: the tail of `text` from the last occurrence of `c`. -/
def strrchr : List Char → Char → Option (List Char)
  | [], _ => none
  | a :: rest, c =>
    match strrchr rest c with
    | some tail => some tail
    | none => if a = c then some (a :: rest) else none

/-- Function `parse_text_as_size`. The parameter `sscanf_lf` is the C library: what
`sscanf(text, "%lf", &v)` stores in `v` when it returns 1, and `none` when it does not. -/
def parse_text_as_size (sscanf_lf : String → Option ℚ) (text : String) : Bool × ℚ :=
  match sscanf_lf text with
  | some v =>
    match strrchr text.data '%' with
    | some (c :: _) => if c = '%' then (true, v / 100) else (false, v)
    | _ => (false, v)
  | none => (true, 1)

/-- Assignment to `_nvidia._detector`. -/
def autoframing_instance.set_detector (self : autoframing_instance)
    (d : Option facedetection) : autoframing_instance :=
  { self with _nvidia := { self._nvidia with _detector := d } }

/-- Member `autoframing_instance::nvidia_destroy`. -/
def autoframing_instance.nvidia_destroy (self : autoframing_instance) : autoframing_instance :=
  match self._nvidia._detector with
  | none => self
  | some _ =>
    let s := self.emit event.cuda_context_enter
    let s := s.emit event.cuda_context_synchronize
    let s := s.emit event.cuda_stream_synchronize
    -- `_nvidia._detector.reset()`
    let s := s.emit event.detector_release
    s.set_detector none

/-- Member `autoframing_instance::nvidia_unload`. -/
def autoframing_instance.nvidia_unload (self : autoframing_instance) : autoframing_instance :=
  let s := self.nvidia_destroy
  -- `_nvidia._ar.reset(); _nvidia._cobs.reset();`
  let s : autoframing_instance :=
    { s with events :=
        s.events ++ (if s._nvidia._ar.isSome then [event.ar_release] else [])
          ++ (if s._nvidia._cobs.isSome then [event.cobs_release] else []) }
  { s with _nvidia := { s._nvidia with _ar := none, _cobs := none, available := false } }

/-- Answers of the process to `nvidia_load`: whether the factory holds CUDA
(`have_nvidia()`), and whether the two `get()` calls return or throw. -/
structure process where
  have_nvidia : Bool
  cuda_obs_get : Bool
  ar_get : Option ar

/-- Member `autoframing_instance::nvidia_load`. -/
def autoframing_instance.nvidia_load (p : process) (self : autoframing_instance) :
    autoframing_instance :=
  if !p.have_nvidia then { self with _nvidia := { self._nvidia with available := false } }
  else
    -- `if (!_nvidia._cobs) _nvidia._cobs = nvidia::cuda::obs::get();`
    if self._nvidia._cobs.isNone && !p.cuda_obs_get then self.nvidia_unload
    else
      let s : autoframing_instance :=
        if self._nvidia._cobs.isNone then { self with _nvidia := { self._nvidia with _cobs := some () } }
        else self
      -- `if (!_nvidia._ar) _nvidia._ar = nvidia::ar::ar::get();`
      if s._nvidia._ar.isNone && p.ar_get.isNone then s.nvidia_unload
      else
        let s : autoframing_instance :=
          if s._nvidia._ar.isNone then { s with _nvidia := { s._nvidia with _ar := p.ar_get } }
          else s
        { s with _nvidia := { s._nvidia with available := true } }

/-- Member `autoframing_instance::nvidia_create`. -/
def autoframing_instance.nvidia_create (k : sdk) (self : autoframing_instance) :
    outcome autoframing_instance :=
  if !self._nvidia.available then
    outcome.throw self (exception.runtime_error "NVIDIA is not available")
  else
    let s := self.emit event.cuda_context_enter
    -- `_nvidia._detector = std::make_shared<::nvidia::ar::facedetection>();`
    match facedetection.ctor k with
    | Except.error e => outcome.throw s e
    | Except.ok d =>
      let s := s.emit event.detector_create
      -- the assignment drops the instance held so far
      let s : autoframing_instance :=
        { s with events :=
            s.events ++ (if self._nvidia._detector.isSome then [event.detector_release] else []) }
      let r := d.enable_temporal_tracking k (!self._track_groups)
      match r.thrown with
      | some e => outcome.throw (s.set_detector (some r.state)) e
      | none =>
        -- `_regions.capacity()` is the capacity the constructor reserved
        let r := r.state.set_limit k ST_MAXIMUM_REGIONS
        match r.thrown with
        | some e => outcome.throw (s.set_detector (some r.state)) e
        | none =>
          let r := r.state.load k
          ⟨s.set_detector (some r.state), r.thrown⟩

/-- The candidate loop of `reinitialize`: `true` when an engine was created (`have_engine`). -/
def autoframing_instance.reinitialize_loop (k : sdk) :
    List engine → autoframing_instance → autoframing_instance × Bool
  | [], s => (s, false)
  | e :: es, s =>
    if e = engine.NVIDIA then
      let r := s.nvidia_create k
      match r.thrown with
      | none => (r.state, true)
      | some _ =>
        -- `catch (std::exception const& ex)`
        autoframing_instance.reinitialize_loop k es r.state.nvidia_destroy
    else autoframing_instance.reinitialize_loop k es s

/-- Member `autoframing_instance::reinitialize`. -/
def autoframing_instance.reinitialize (k : sdk) (self : autoframing_instance) :
    outcome autoframing_instance :=
  -- If we switched engines, destroy any possibly existing instances.
  let s := if self._last_engine ≠ self._engine then self.nvidia_destroy else self
  -- If the engine is still the same, just reinitialize it.
  let engines : List engine :=
    if s._nvidia.available && (s._engine = engine.AUTOMATIC || s._engine = engine.NVIDIA) then
      [engine.NVIDIA]
    else []
  let (s, _have_engine) := autoframing_instance.reinitialize_loop k engines s
  outcome.ok { s with _last_engine := s._engine }

/-- The copy loop of `nvidia_track`, with `n` detector slots left to visit from `idx`: the
region list and the write index `ridx` it ends with. -/
def nvidia_track_loop (d : facedetection) :
    Nat → Nat → Nat → List rect → outcome (List rect × Nat)
  | 0, _, ridx, regions => outcome.ok (regions, ridx)
  | n + 1, idx, ridx, regions =>
    match facedetection.at d idx with
    | Except.error e => outcome.throw (regions, ridx) e
    | Except.ok (rc, confidence) =>
      -- Only copy the detected region if we are confident that it is a face.
      if confidence > 1 / 2 then
        -- `_regions.at(ridx)`
        if ridx < regions.length then
          nvidia_track_loop d n (idx + 1) (ridx + 1) (regions.set ridx ⟨rc.x, rc.y, rc.z, rc.w⟩)
        else outcome.throw (regions, ridx) (exception.out_of_range "vector::at")
      else nvidia_track_loop d n (idx + 1) ridx regions

/-- Member `autoframing_instance::nvidia_track`, entered with the detector `d` that
`_nvidia._detector` holds. -/
def autoframing_instance.nvidia_track (k : sdk) (self : autoframing_instance)
    (d : facedetection) : outcome autoframing_instance :=
  let s := self.emit event.cuda_context_enter
  let s := s.emit event.detector_track
  let r := d.track k (s._capture.bind gs.rendertarget.get_texture)
  let s := s.set_detector (some r.state)
  match r.thrown with
  | some e => outcome.throw s e
  | none =>
    -- Copy any tracked regions to the internal state of the filter.
    let regions := resize s._regions ST_MAXIMUM_REGIONS
    let l := nvidia_track_loop r.state r.state.count 0 0 regions
    match l.thrown with
    | some e => outcome.throw { s with _regions := l.state.1 } e
    | none => outcome.ok { s with _regions := resize l.state.1 l.state.2 }

/-- One pass of the bounding loop of `perform` over `region`. -/
def perform_boundary_step (size : Nat × Nat) (b : boundary) (region : rect) : boundary :=
  { left := if b.left.gt region.left then fbound.fin region.left else b.left
    top := if b.top.gt region.top then fbound.fin region.top else b.top
    right :=
      if b.right.gt ((size.1 : ℚ) - (region.left + region.w)) then
        fbound.fin ((size.1 : ℚ) - (region.left + region.w))
      else b.right
    bottom :=
      if b.bottom.gt ((size.2 : ℚ) - (region.top + region.h)) then
        fbound.fin ((size.2 : ℚ) - (region.top + region.h))
      else b.bottom }

/-- The bounding loop of `perform`: `boundary` after the loop over `_regions`. -/
def perform_boundary (size : Nat × Nat) (regions : List rect) : boundary :=
  regions.foldl (perform_boundary_step size)
    { left := fbound.inf, top := fbound.inf, right := fbound.inf, bottom := fbound.inf }

/-- The `// Padding` block of `perform`. -/
def perform_padding (padding : ℚ × ℚ) (b : boundary) : boundary :=
  { left := b.left.sub padding.1
    right := b.right.sub padding.1
    top := b.top.sub padding.2
    bottom := b.bottom.sub padding.2 }

/-- The `// Convert to frame.` block of `perform`. -/
def perform_convert (size : Nat × Nat) (b : boundary) : rect :=
  { x := b.left.val
    y := b.top.val
    w := ((size.1 : ℚ) - b.right.val) - b.left.val
    h := ((size.2 : ℚ) - b.bottom.val) - b.top.val }

/-- The vertical bias of `perform`: `frame.y -= frame.h * (1. / 30.)`. -/
def perform_bias (frame : rect) : rect :=
  { frame with y := frame.y - frame.h * (1 / 30) }

/-- The `// Offset` block of `perform`. -/
def perform_offset (offset : ℚ × ℚ) (frame : rect) : rect :=
  let frame := { frame with x := frame.x + offset.1 }
  { frame with y := frame.y - offset.1 }

/-- The `// Fix Aspect Ratio` block of `perform`. -/
def perform_aspect (size : Nat × Nat) (frame : rect) : rect :=
  let aspect : ℚ := (size.1 : ℚ) / (size.2 : ℚ)
  let cx : ℚ := frame.x + frame.w / 2
  let tw : ℚ := frame.h * aspect
  let frame := { frame with x := cx - tw / 2 }
  { frame with w := tw }

/-- The framing part of `perform`, after the tracking step: the value stored in `_frame`. -/
def perform_frame (size : Nat × Nat) (padding offset : ℚ × ℚ) (regions : List rect) : rect :=
  if regions.length > 0 then
    let boundary := perform_boundary size regions
    let boundary := perform_padding padding boundary
    let frame := perform_convert size boundary
    let frame := perform_bias frame
    let frame := perform_offset offset frame
    perform_aspect size frame
  else
    { x := 0, y := 0, w := (size.1 : ℚ), h := (size.2 : ℚ) }

/-- Member `autoframing_instance::perform`. -/
def autoframing_instance.perform (k : sdk) (self : autoframing_instance) :
    outcome autoframing_instance :=
  -- Track with any available engine.
  let r : outcome autoframing_instance :=
    match self._nvidia._detector with
    | some d => self.nvidia_track k d
    | none => outcome.ok self
  match r.thrown with
  | some e => outcome.throw r.state e
  | none =>
    let s := r.state
    outcome.ok { s with _frame := perform_frame s._size s._padding s._offset s._regions }

/-- The settings blocks of `update` (Tracking, Layout, Advanced): the state after the
assignments and the value of the local `reinit`. -/
def autoframing_instance.update_settings (sscanf_lf : String → Option ℚ)
    (self : autoframing_instance) (data : obs_data) : autoframing_instance × Bool :=
  let reinit : Bool := self._force_reinit
  -- Tracking > Mode
  let v : Bool := decide (data.Tracking_Mode ≠ 0)
  let reinit := reinit || (self._track_groups != v)
  let s : autoframing_instance := { self with _track_groups := v }
  -- Layout > Padding
  let x := parse_text_as_size sscanf_lf data.Layout_Padding_X
  let y := parse_text_as_size sscanf_lf data.Layout_Padding_Y
  let s : autoframing_instance :=
    { s with _padding := (if x.1 then x.2 * (s._size.1 : ℚ) else x.2, s._padding.2) }
  let s : autoframing_instance :=
    { s with _padding := (s._padding.1, if y.1 then y.2 * (s._size.2 : ℚ) else y.2) }
  -- Layout > Offset
  let x := parse_text_as_size sscanf_lf data.Layout_Offset_X
  let y := parse_text_as_size sscanf_lf data.Layout_Offset_Y
  let s : autoframing_instance :=
    { s with _offset := (if x.1 then x.2 * (s._size.1 : ℚ) else x.2, s._offset.2) }
  let s : autoframing_instance :=
    { s with _offset := (s._offset.1, if y.1 then y.2 * (s._size.2 : ℚ) else y.2) }
  -- Advanced > Engine
  let v : engine := engine.of_int64 data.Advanced_Engine
  let reinit := reinit || (s._engine != v)
  let s : autoframing_instance := { s with _engine := v }
  (s, reinit)

/-- Member `autoframing_instance::update`. -/
def autoframing_instance.update (sscanf_lf : String → Option ℚ) (k : sdk)
    (self : autoframing_instance) (data : obs_data) : outcome autoframing_instance :=
  let (s, reinit) := self.update_settings sscanf_lf data
  if reinit then
    let r := autoframing_instance.reinitialize k s
    match r.thrown with
    | some e => outcome.throw r.state e
    | none => outcome.ok { r.state with _force_reinit := false }
  else outcome.ok s

/-- Member `autoframing_instance::video_tick`; `target` is the size of the source
`obs_filter_get_target` returns, `none` for a null source. -/
def autoframing_instance.video_tick (self : autoframing_instance) (target : Option (Nat × Nat)) :
    autoframing_instance :=
  -- Update the input size.
  let s : autoframing_instance :=
    match target with
    | some src => { self with _size := (src.1, src.2) }
    | none => { self with _size := (1, 1) }
  { s with _capture_fresh := false }

/-- Answers of the host to `video_render`. -/
structure host where
  /-- result of `obs_source_process_filter_begin` -/
  process_filter_begin : Bool

/-- Assignment to the texture coordinate of vertex `i` (`_vb->at(i).uv[0]`). -/
def set_uv (vb : List vertex) (i : Nat) (uv : ℚ × ℚ) : List vertex :=
  match vb[i]? with
  | some v => vb.set i { v with uv := uv }
  | none => vb

/-- The `// Adjust UVs` block of `video_render`. -/
def adjust_uvs (frame : rect) (size : Nat × Nat) (vb : List vertex) : List vertex :=
  let vb := set_uv vb 0 (frame.x / (size.1 : ℚ), frame.y / (size.2 : ℚ))
  let vb := set_uv vb 1 ((frame.x + frame.w) / (size.1 : ℚ), frame.y / (size.2 : ℚ))
  let vb := set_uv vb 2 (frame.x / (size.1 : ℚ), (frame.y + frame.h) / (size.2 : ℚ))
  set_uv vb 3 ((frame.x + frame.w) / (size.1 : ℚ), (frame.y + frame.h) / (size.2 : ℚ))

/-- The part of `video_render` after the capture block: the UVs are adjusted and the quad is
drawn. -/
def autoframing_instance.video_render_present (self : autoframing_instance) :
    autoframing_instance :=
  let s : autoframing_instance := { self with _vb := adjust_uvs self._frame self._size self._vb }
  s.emit event.draw

/-- Member `autoframing_instance::video_render`. -/
def autoframing_instance.video_render (h : host) (k : sdk) (self : autoframing_instance) :
    outcome autoframing_instance :=
  if !self._capture_fresh then
    -- Only re-capture if we ticked before.
    let s := self.emit (event.process_filter_begin h.process_filter_begin)
    if h.process_filter_begin then
      -- `_capture->render(_size.first, _size.second)`
      let s : autoframing_instance :=
        { s with _capture :=
            s._capture.map fun rt => { rt with _texture := some ⟨s._size.1, s._size.2, rt.format⟩ } }
      let s := s.emit event.process_filter_end
      -- Update Tracking
      let r := s.perform k
      match r.thrown with
      | some e => outcome.throw r.state e
      | none =>
        let s : autoframing_instance := { r.state with _capture_fresh := true }
        outcome.ok s.video_render_present
    else
      -- `obs_source_skip_video_filter(_self); return;`
      outcome.ok (s.emit event.skip_video_filter)
  else outcome.ok self.video_render_present

/-- Destructor `autoframing_instance::~autoframing_instance`. -/
def autoframing_instance.dtor (self : autoframing_instance) : autoframing_instance :=
  -- Unload Engines
  let s := self.nvidia_unload
  -- `_capture.reset()`
  let s : autoframing_instance :=
    { s with events := s.events ++ (if s._capture.isSome then [event.capture_release] else []) }
  { s with _capture := none }

/-- Constructor `autoframing_instance::autoframing_instance`. The member `_capture_fresh` has
no initialiser; `fresh` is the value it happens to hold. -/
def autoframing_instance.ctor (sscanf_lf : String → Option ℚ) (p : process) (k : sdk)
    (fresh : Bool) (settings : obs_data) : outcome autoframing_instance :=
  let self : autoframing_instance :=
    { _size := (0, 0)
      _vb := []
      _capture := none
      _capture_fresh := fresh
      _force_reinit := true
      _track_groups := false
      _padding := (0, 0)
      _offset := (0, 0)
      _engine := engine.AUTOMATIC
      _last_engine := engine.AUTOMATIC
      _nvidia := { available := false, _cobs := none, _ar := none, _detector := none }
      _regions := List.replicate ST_MAXIMUM_REGIONS ⟨0, 0, 0, 0⟩
      _frame := ⟨0, 0, 0, 0⟩
      events := [] }
  let s : autoframing_instance :=
    { self with _capture := some { format := gs.color_format.GS_RGBA, _texture := none } }
  -- `_vb = std::make_shared<gs::vertex_buffer>(4, 1)` and the four `vec3_set` calls
  let s : autoframing_instance :=
    { s with _vb := [⟨(0, 0, 0), (0, 0)⟩, ⟨(1, 0, 0), (0, 0)⟩, ⟨(0, 1, 0), (0, 0)⟩,
                     ⟨(1, 1, 0), (0, 0)⟩] }
  -- Load Engines
  let s := s.nvidia_load p
  -- Update from passed data.
  s.update sscanf_lf k settings

/-! ### Predicates and sample values used by the statements -/

/-- Relation `b ≤ v` between a boundary coordinate and a finite float: `b` is finite and at
most `v`. -/
def fbound.le (b : fbound) (v : ℚ) : Prop :=
  match b with
  | fbound.inf => False
  | fbound.fin c => c ≤ v

/-- The boundary `b` (left, top, right margin, bottom margin) reaches at least as far as
each edge of `r`, for the input size `size`. -/
def boundary.covers (size : Nat × Nat) (b : boundary) (r : rect) : Prop :=
  b.left.le r.x ∧ b.top.le r.y ∧ b.right.le ((size.1 : ℚ) - (r.x + r.w)) ∧
    b.bottom.le ((size.2 : ℚ) - (r.y + r.h))

/-- The region `r` lies inside the input frame of size `size`. -/
def rect.inside (size : Nat × Nat) (r : rect) : Prop :=
  0 ≤ r.x ∧ 0 ≤ r.y ∧ 0 ≤ r.w ∧ 0 ≤ r.h ∧ r.x + r.w ≤ (size.1 : ℚ) ∧ r.y + r.h ≤ (size.2 : ℚ)

/-- The frame `f` contains the region `r`. -/
def rect.contains (f r : rect) : Prop :=
  f.x ≤ r.x ∧ f.y ≤ r.y ∧ r.x + r.w ≤ f.x + f.w ∧ r.y + r.h ≤ f.y + f.h

/-- The frame `perform` holds after the `// Convert to frame.` block, before the vertical
bias, the offset and the aspect lock. -/
def perform_preframe (size : Nat × Nat) (padding : ℚ × ℚ) (regions : List rect) : rect :=
  perform_convert size (perform_padding padding (perform_boundary size regions))

/-- An SDK that accepts every call and whose run reports the given buffers. -/
def sdk_accepting (rects : List rect_t) (confidence : List ℚ) (current : Nat) : sdk :=
  { ar_get := { _sdk_path := "", _model_path := "models" }
    AR_Create := result.SUCCESS
    AR_SetU32 := fun _ _ => result.SUCCESS
    AR_SetObject := fun _ => result.SUCCESS
    AR_SetF32Array := fun _ _ => result.SUCCESS
    AR_SetCudaStream := fun _ => result.SUCCESS
    AR_SetString := fun _ _ => result.SUCCESS
    AR_Load := result.SUCCESS
    AR_Run := result.SUCCESS
    run_rects := rects
    run_confidence := confidence
    run_current := current
    input_create := fun _ => none
    input_update := none }

/-- The vertex buffer as the constructor leaves it: the corners of the unit square in the
order top-left, top-right, bottom-left, bottom-right. -/
def quad_vertices : List vertex :=
  [⟨(0, 0, 0), (0, 0)⟩, ⟨(1, 0, 0), (0, 0)⟩, ⟨(0, 1, 0), (0, 0)⟩, ⟨(1, 1, 0), (0, 0)⟩]

/-- A filter state without tracker, with the given input size, layout and region list. -/
def instance_without_tracker (size : Nat × Nat) (padding offset : ℚ × ℚ)
    (regions : List rect) : autoframing_instance :=
  { _size := size
    _vb := quad_vertices
    _capture := some { format := gs.color_format.GS_RGBA, _texture := none }
    _capture_fresh := false
    _force_reinit := false
    _track_groups := false
    _padding := padding
    _offset := offset
    _engine := engine.AUTOMATIC
    _last_engine := engine.AUTOMATIC
    _nvidia := { available := false, _cobs := none, _ar := none, _detector := none }
    _regions := regions
    _frame := ⟨0, 0, 0, 0⟩
    events := [] }

/-- Copy of one detector result into a region: `(x, y, w, h) = (rc.x, rc.y, rc.z, rc.w)`. -/
def region_of (rc : rect_t) : rect := ⟨rc.x, rc.y, rc.z, rc.w⟩

/-- The results accepted among a list of (rectangle, confidence) pairs, in the order of the
list: those whose confidence is strictly above 0.5, each copied into a region. -/
def accept (l : List (rect_t × ℚ)) : List rect :=
  (l.filter (fun p => decide (p.2 > 1 / 2))).map (fun p => region_of p.1)

/-- The region list the specification asks for after a tracking run: the accepted results
among those with index below `count()`, in detector order. -/
def accepted_regions (d : facedetection) : List rect :=
  accept ((d._rects.zip d._rects_confidence).take d.count)

/-- A tracker as `nvidia_create` leaves it: eight result slots, nothing tracked yet. -/
def sample_detector : facedetection :=
  { _feature := { Temporal := some 1, ModelDir := some "models", CUDAStream := true, loaded := true }
    _ar := { _sdk_path := "", _model_path := "models" }
    _loaded := false
    _rects := List.replicate 8 ⟨0, 0, 0, 0⟩
    _rects_confidence := List.replicate 8 0
    _bboxes := { current := 0, maximum := 8 }
    _input_texture := none
    _input_mapped := none
    _input_buffer := none
    _input := none }

/-- A filter state holding the tracker `d` and a captured texture of the input size. -/
def instance_with_tracker (size : Nat × Nat) (padding offset : ℚ × ℚ)
    (regions : List rect) (d : facedetection) : autoframing_instance :=
  { _size := size
    _vb := quad_vertices
    _capture := some { format := gs.color_format.GS_RGBA,
                       _texture := some ⟨size.1, size.2, gs.color_format.GS_RGBA⟩ }
    _capture_fresh := false
    _force_reinit := false
    _track_groups := false
    _padding := padding
    _offset := offset
    _engine := engine.AUTOMATIC
    _last_engine := engine.AUTOMATIC
    _nvidia := { available := true, _cobs := some (), _ar := some d._ar, _detector := some d }
    _regions := regions
    _frame := ⟨0, 0, 0, 0⟩
    events := [] }

/-- Answers of `sscanf(text, "%lf", &v)` on the texts of the scenarios below. -/
def sscanf_lf_table : String → Option ℚ
  | "50%" => some 50
  | "50" => some 50
  | "10.0 %" => some 10
  | "0.0 %" => some 0
  | "-5.0 %" => some (-5)
  | _ => none

/-- The state `t` differs from `s` at most in the engine part (`_nvidia`, `_last_engine`)
and in the recorded calls. -/
def autoframing_instance.same_frame_state (s t : autoframing_instance) : Prop :=
  t._size = s._size ∧ t._capture = s._capture ∧ t._capture_fresh = s._capture_fresh ∧
  t._force_reinit = s._force_reinit ∧ t._track_groups = s._track_groups ∧
  t._padding = s._padding ∧ t._offset = s._offset ∧ t._engine = s._engine ∧
  t._regions = s._regions ∧ t._frame = s._frame

/-- The pixel value `update` stores for a parsed size `x` on an axis of `axis` pixels. -/
def resolve_size (x : Bool × ℚ) (axis : Nat) : ℚ := if x.1 then x.2 * (axis : ℚ) else x.2

/-- Construction, configuration and loading of a tracker all succeed against the SDK `k`,
for the tracking mode `track_groups`: the stages `nvidia_create` runs. -/
def creation_succeeds (k : sdk) (track_groups : Bool) : Prop :=
  ∃ d : facedetection, facedetection.ctor k = Except.ok d ∧
    (d.enable_temporal_tracking k (!track_groups)).thrown = none ∧
    ((d.enable_temporal_tracking k (!track_groups)).state.set_limit k
      ST_MAXIMUM_REGIONS).thrown = none ∧
    (((d.enable_temporal_tracking k (!track_groups)).state.set_limit k
      ST_MAXIMUM_REGIONS).state.load k).thrown = none

/-- Invariant of the filter state: a tracker is held only while the backend is available
and the engine of the last initialisation is AUTOMATIC or NVIDIA. -/
def autoframing_instance.tracker_inv (s : autoframing_instance) : Prop :=
  s._nvidia._detector.isSome = true →
    s._nvidia.available = true ∧
      (s._last_engine = engine.AUTOMATIC ∨ s._last_engine = engine.NVIDIA)

/-- An SDK that accepts every call except `AR_Load`, which fails with `code`. -/
def sdk_failing_load (code : Int) : sdk := { sdk_accepting [] [] 0 with AR_Load := code }

/-- Defaults of `autoframing_factory::get_defaults2`. -/
def get_defaults2 : obs_data :=
  { Tracking_Mode := 0
    Layout_Padding_X := "10.0 %"
    Layout_Padding_Y := "10.0 %"
    Layout_Offset_X := "0.0 %"
    Layout_Offset_Y := "-5.0 %"
    Advanced_Engine := 0 }

/-- A process in which CUDA and the SDK library are present. -/
def process_with_nvidia : process :=
  { have_nvidia := true, cuda_obs_get := true,
    ar_get := some { _sdk_path := "", _model_path := "models" } }

/-- A tracker with eight result slots after a run that found one face: slot 0 holds the
face, slot 1 still holds what an earlier run left there. -/
def detector_with_one_face : facedetection :=
  { sample_detector with
    _rects := [⟨100, 100, 50, 50⟩, ⟨7, 7, 7, 7⟩, ⟨0, 0, 0, 0⟩, ⟨0, 0, 0, 0⟩, ⟨0, 0, 0, 0⟩,
               ⟨0, 0, 0, 0⟩, ⟨0, 0, 0, 0⟩, ⟨0, 0, 0, 0⟩]
    _rects_confidence := [9 / 10, 3 / 4, 0, 0, 0, 0, 0, 0]
    _bboxes := { current := 1, maximum := 8 } }

/-- The state `video_render` hands to `perform` after a granted capture. -/
def autoframing_instance.captured (s : autoframing_instance) : autoframing_instance :=
  (({ s.emit (event.process_filter_begin true) with
      _capture := s._capture.map fun rt =>
        { rt with _texture := some ⟨s._size.1, s._size.2, rt.format⟩ } } :
      autoframing_instance)).emit event.process_filter_end

/-- The UV pairs the specification assigns to the corners top-left, top-right,
bottom-left, bottom-right for the frame `frame` and the input size `size`. -/
def frame_uvs (frame : rect) (size : Nat × Nat) : List (ℚ × ℚ) :=
  [(frame.x / (size.1 : ℚ), frame.y / (size.2 : ℚ)),
   ((frame.x + frame.w) / (size.1 : ℚ), frame.y / (size.2 : ℚ)),
   (frame.x / (size.1 : ℚ), (frame.y + frame.h) / (size.2 : ℚ)),
   ((frame.x + frame.w) / (size.1 : ℚ), (frame.y + frame.h) / (size.2 : ℚ))]

/-- A run of `video_render` calls without a tick in between, each with its own host and SDK
answers; a call left by an exception leaves its state to the next call. -/
def renders (l : List (host × sdk)) (s : autoframing_instance) : autoframing_instance :=
  l.foldl (fun t hk => (t.video_render hk.1 hk.2).state) s

/-- A process environment in which both variables are set. -/
def getenv_both : String → Option String
  | "NV_AR_SDK_PATH" => some "/opt/nvidia/ar"
  | "NVAR_MODEL_PATH" => some "/opt/models"
  | _ => none

/-- A process environment in which only the SDK root is set. -/
def getenv_sdk_only : String → Option String
  | "NV_AR_SDK_PATH" => some "/opt/nvidia/ar"
  | _ => none

/-- A run of `video_tick` calls, one per entry of `l`. -/
def ticks (l : List (Option (Nat × Nat))) (s : autoframing_instance) : autoframing_instance :=
  l.foldl (fun t target => t.video_tick target) s

/-! ## Theorems -/

/-! ### The bounding loop -/

theorem fbound.lower_le_self (b : fbound) (v : ℚ) :
    (if b.gt v then fbound.fin v else b).le v := by
  cases b with
  | inf => simp [fbound.gt, fbound.le]
  | fin c =>
    by_cases h : v < c
    · simp [fbound.gt, fbound.le, h]
    · simp [fbound.gt, fbound.le, h]; exact not_lt.mp h

theorem fbound.lower_le_of_le (b : fbound) (v u : ℚ) (hb : b.le u) :
    (if b.gt v then fbound.fin v else b).le u := by
  cases b with
  | inf => exact absurd hb (by simp [fbound.le])
  | fin c =>
    have hc : c ≤ u := hb
    by_cases h : v < c
    · simp [fbound.gt, fbound.le, h]; exact le_trans (le_of_lt h) hc
    · simp [fbound.gt, fbound.le, h]; exact hc

theorem fbound.le_iff (b : fbound) (v : ℚ) : b.le v ↔ ∃ c, b = fbound.fin c ∧ c ≤ v := by
  cases b with
  | inf => simp [fbound.le]
  | fin c => simp [fbound.le]

theorem perform_boundary_step_covers_self (size : Nat × Nat) (b : boundary) (r : rect) :
    (perform_boundary_step size b r).covers size r :=
  ⟨fbound.lower_le_self _ _, fbound.lower_le_self _ _, fbound.lower_le_self _ _,
    fbound.lower_le_self _ _⟩

theorem perform_boundary_step_covers_mono (size : Nat × Nat) (b : boundary) (r u : rect)
    (h : b.covers size u) : (perform_boundary_step size b r).covers size u :=
  ⟨fbound.lower_le_of_le _ _ _ h.1, fbound.lower_le_of_le _ _ _ h.2.1,
    fbound.lower_le_of_le _ _ _ h.2.2.1, fbound.lower_le_of_le _ _ _ h.2.2.2⟩

theorem perform_boundary_foldl_covers (size : Nat × Nat) (u : rect) :
    ∀ (rs : List rect) (b : boundary), (b.covers size u ∨ u ∈ rs) →
      (rs.foldl (perform_boundary_step size) b).covers size u := by
  intro rs
  induction rs with
  | nil =>
    intro b h
    rcases h with h | h
    · exact h
    · exact absurd h (List.not_mem_nil u)
  | cons r rs ih =>
    intro b h
    rw [List.foldl_cons]
    apply ih
    rcases h with h | h
    · exact Or.inl (perform_boundary_step_covers_mono size b r u h)
    · rcases List.mem_cons.mp h with h | h
      · subst h
        exact Or.inl (perform_boundary_step_covers_self size b u)
      · exact Or.inr h

/-- After the loop the boundary is finite and reaches every region of the list. -/
theorem perform_boundary_covers (size : Nat × Nat) (rs : List rect) (u : rect) (h : u ∈ rs) :
    (perform_boundary size rs).covers size u :=
  perform_boundary_foldl_covers size u rs _ (Or.inr h)

/-- The padded frame contains every region of the list, with the padding to spare. -/
theorem perform_preframe_margins (size : Nat × Nat) (padding : ℚ × ℚ) (rs : List rect)
    (u : rect) (h : u ∈ rs) :
    (perform_preframe size padding rs).x + padding.1 ≤ u.x ∧
    (perform_preframe size padding rs).y + padding.2 ≤ u.y ∧
    u.x + u.w + padding.1 ≤ (perform_preframe size padding rs).x + (perform_preframe size padding rs).w ∧
    u.y + u.h + padding.2 ≤ (perform_preframe size padding rs).y + (perform_preframe size padding rs).h := by
  obtain ⟨h1, h2, h3, h4⟩ := perform_boundary_covers size rs u h
  obtain ⟨l, hl, hl'⟩ := (fbound.le_iff _ _).mp h1
  obtain ⟨t, ht, ht'⟩ := (fbound.le_iff _ _).mp h2
  obtain ⟨r, hr, hr'⟩ := (fbound.le_iff _ _).mp h3
  obtain ⟨b, hb, hb'⟩ := (fbound.le_iff _ _).mp h4
  simp only [perform_preframe, perform_convert, perform_padding, hl, ht, hr, hb, fbound.sub,
    fbound.val]
  refine ⟨?_, ?_, ?_, ?_⟩ <;> linarith

/-! ### The framing computation -/

theorem nvidia_track_size (k : sdk) (s : autoframing_instance) (d : facedetection) :
    (s.nvidia_track k d).state._size = s._size ∧
    (s.nvidia_track k d).state._padding = s._padding ∧
    (s.nvidia_track k d).state._offset = s._offset := by
  unfold autoframing_instance.nvidia_track
  simp only [autoframing_instance.emit, autoframing_instance.set_detector]
  split
  · simp [outcome.throw]
  · split <;> simp [outcome.throw, outcome.ok]

theorem perform_frame_nil (size : Nat × Nat) (padding offset : ℚ × ℚ) :
    perform_frame size padding offset [] = ⟨0, 0, (size.1 : ℚ), (size.2 : ℚ)⟩ := by
  simp [perform_frame]

theorem perform_without_detector (k : sdk) (s : autoframing_instance)
    (h : s._nvidia._detector = none) :
    s.perform k =
      outcome.ok { s with _frame := perform_frame s._size s._padding s._offset s._regions } := by
  simp [autoframing_instance.perform, h, outcome.ok]

theorem perform_with_detector (k : sdk) (s : autoframing_instance) (d : facedetection)
    (h : s._nvidia._detector = some d) (hok : (s.nvidia_track k d).thrown = none) :
    s.perform k =
      outcome.ok { (s.nvidia_track k d).state with
        _frame := perform_frame s._size s._padding s._offset (s.nvidia_track k d).state._regions } := by
  obtain ⟨h1, h2, h3⟩ := nvidia_track_size k s d
  simp [autoframing_instance.perform, h, hok, outcome.ok, h1, h2, h3]

theorem perform_stores_frame (k : sdk) (s : autoframing_instance)
    (hok : (s.perform k).thrown = none) :
    (s.perform k).state._frame =
      perform_frame s._size s._padding s._offset (s.perform k).state._regions ∧
    (s.perform k).state._size = s._size := by
  cases hd : s._nvidia._detector with
  | none => simp [perform_without_detector k s hd, outcome.ok]
  | some d =>
    have ht : (s.nvidia_track k d).thrown = none := by
      cases hth : (s.nvidia_track k d).thrown with
      | none => rfl
      | some e =>
        simp [autoframing_instance.perform, hd, hth, outcome.throw] at hok
    obtain ⟨h1, h2, h3⟩ := nvidia_track_size k s d
    simp [perform_with_detector k s d hd ht, outcome.ok, h1]

/-- C1: with an empty region list after the tracking step, `perform` returns and stores the
full input rectangle `(0, 0, W, H)`, whatever the padding and offset are. -/
theorem perform_empty_regions (k : sdk) (s : autoframing_instance)
    (h : match s._nvidia._detector with
      | some d => (s.nvidia_track k d).thrown = none ∧ (s.nvidia_track k d).state._regions = []
      | none => s._regions = []) :
    (s.perform k).thrown = none ∧
    (s.perform k).state._frame = ⟨0, 0, (s._size.1 : ℚ), (s._size.2 : ℚ)⟩ ∧
    (s.perform k).state._size = s._size := by
  cases hd : s._nvidia._detector with
  | none =>
    rw [hd] at h
    simp only at h
    rw [perform_without_detector k s hd, h, perform_frame_nil]
    simp [outcome.ok]
  | some d =>
    rw [hd] at h
    simp only at h
    obtain ⟨h1, _, _⟩ := nvidia_track_size k s d
    rw [perform_with_detector k s d hd h.1, h.2, perform_frame_nil]
    simp [outcome.ok, h1]

/-- C1 (witness): a 1920x1080 input, padding `(192, 108)`, offset `(5, 7)`, no region. -/
theorem perform_empty_regions_witness :
    (instance_without_tracker (1920, 1080) (192, 108) (5, 7) [])._regions = [] ∧
    ((instance_without_tracker (1920, 1080) (192, 108) (5, 7) []).perform
        (sdk_accepting [] [] 0)).state._frame = ⟨0, 0, 1920, 1080⟩ :=
  ⟨rfl, by
    simpa [instance_without_tracker] using
      (perform_empty_regions (sdk_accepting [] [] 0)
        (instance_without_tracker (1920, 1080) (192, 108) (5, 7) []) rfl).2.1⟩

theorem perform_frame_cons (size : Nat × Nat) (padding offset : ℚ × ℚ) (r : rect)
    (rs : List rect) :
    perform_frame size padding offset (r :: rs) =
      perform_aspect size (perform_offset offset (perform_bias
        (perform_preframe size padding (r :: rs)))) := by
  simp [perform_frame, perform_preframe]

theorem perform_frame_of_mem (size : Nat × Nat) (padding offset : ℚ × ℚ) (rs : List rect)
    (u : rect) (h : u ∈ rs) :
    perform_frame size padding offset rs =
      perform_aspect size (perform_offset offset (perform_bias
        (perform_preframe size padding rs))) := by
  cases rs with
  | nil => exact absurd h (List.not_mem_nil u)
  | cons r rs => exact perform_frame_cons size padding offset r rs

/-- C2 (counterexample): two faces at the left and right border of a 100x100 input, without
padding or offset: the output frame is `(45, -1/3, 10, 10)` and contains neither of them. -/
theorem perform_frame_crops_regions :
    rect.inside (100, 100) ⟨0, 0, 10, 10⟩ ∧ rect.inside (100, 100) ⟨90, 0, 10, 10⟩ ∧
    perform_frame (100, 100) (0, 0) (0, 0) [⟨0, 0, 10, 10⟩, ⟨90, 0, 10, 10⟩]
      = ⟨45, -1 / 3, 10, 10⟩ ∧
    ¬ rect.contains
        (perform_frame (100, 100) (0, 0) (0, 0) [⟨0, 0, 10, 10⟩, ⟨90, 0, 10, 10⟩])
        ⟨0, 0, 10, 10⟩ := by
  have hf : perform_frame (100, 100) (0, 0) (0, 0) [⟨0, 0, 10, 10⟩, ⟨90, 0, 10, 10⟩]
      = ⟨45, -1 / 3, 10, 10⟩ := by
    norm_num [perform_frame, perform_boundary, perform_boundary_step, fbound.gt,
      perform_padding, fbound.sub, perform_convert, fbound.val, rect.left, rect.top,
      perform_bias, perform_offset, perform_aspect]
  refine ⟨?_, ?_, hf, ?_⟩
  · norm_num [rect.inside]
  · norm_num [rect.inside]
  · rw [hf]
    norm_num [rect.contains]

/-- C2 (amended): for regions inside the input frame, non-negative padding and zero offset,
the padded bounding box contains every region and the output frame starts above every
region; the output frame contains a region down to its bottom edge when the vertical
padding is at least 1/30 of the box height, and from its left to its right edge when the
box is no wider than its height times `W / H`. -/
theorem perform_frame_contains (size : Nat × Nat) (padding offset : ℚ × ℚ)
    (regions : List rect) (r : rect)
    (_hW : 0 < size.1) (_hH : 0 < size.2)
    (hin : ∀ u ∈ regions, rect.inside size u)
    (hpx : 0 ≤ padding.1) (hpy : 0 ≤ padding.2) (hoff : offset = (0, 0))
    (hr : r ∈ regions) :
    rect.contains (perform_preframe size padding regions) r ∧
    (perform_frame size padding offset regions).y ≤ r.y ∧
    ((perform_preframe size padding regions).h / 30 ≤ padding.2 →
      r.y + r.h ≤ (perform_frame size padding offset regions).y
        + (perform_frame size padding offset regions).h) ∧
    ((perform_preframe size padding regions).w
        ≤ (perform_preframe size padding regions).h * ((size.1 : ℚ) / (size.2 : ℚ)) →
      (perform_frame size padding offset regions).x ≤ r.x ∧
      r.x + r.w ≤ (perform_frame size padding offset regions).x
        + (perform_frame size padding offset regions).w) := by
  obtain ⟨m1, m2, m3, m4⟩ := perform_preframe_margins size padding regions r hr
  obtain ⟨_, _, _, hh, _, _⟩ := hin r hr
  rw [perform_frame_of_mem size padding offset regions r hr, hoff]
  generalize perform_preframe size padding regions = pre at *
  simp only [perform_aspect, perform_offset, perform_bias, rect.contains]
  refine ⟨⟨by linarith, by linarith, by linarith, by linarith⟩, by linarith, ?_, ?_⟩
  · intro h
    linarith
  · intro h
    constructor <;> linarith

/-- C2 (witness): one face `(40, 40, 20, 20)` in a 100x100 input with padding `(10, 10)`:
the padded box is `(30, 30, 40, 40)`, both side conditions hold, and the output frame
contains the face. -/
theorem perform_frame_contains_witness :
    rect.inside (100, 100) ⟨40, 40, 20, 20⟩ ∧
    rect.contains (perform_frame (100, 100) (10, 10) (0, 0) [⟨40, 40, 20, 20⟩])
      ⟨40, 40, 20, 20⟩ := by
  have hi : rect.inside (100, 100) ⟨40, 40, 20, 20⟩ := by norm_num [rect.inside]
  have hp : perform_preframe (100, 100) (10, 10) [⟨40, 40, 20, 20⟩] = ⟨30, 30, 40, 40⟩ := by
    norm_num [perform_preframe, perform_boundary, perform_boundary_step, fbound.gt,
      perform_padding, fbound.sub, perform_convert, fbound.val, rect.left, rect.top]
  have h := perform_frame_contains (100, 100) (10, 10) (0, 0) [⟨40, 40, 20, 20⟩]
    ⟨40, 40, 20, 20⟩ (by decide) (by decide)
    (by intro u hu; rw [List.mem_singleton.mp hu]; exact hi)
    (by norm_num) (by norm_num) rfl (by simp)
  have hv := h.2.2.1 (by rw [hp]; norm_num)
  have hh := h.2.2.2 (by rw [hp]; norm_num)
  exact ⟨hi, hh.1, h.2.1, hh.2, hv⟩

/-- C3: the stored frame has the aspect ratio of the input. -/
theorem perform_frame_aspect (k : sdk) (s : autoframing_instance) (hH : 0 < s._size.2) :
    (∀ (padding offset : ℚ × ℚ) (regions : List rect),
      (perform_frame s._size padding offset regions).w * (s._size.2 : ℚ)
        = (perform_frame s._size padding offset regions).h * (s._size.1 : ℚ)) ∧
    ((s.perform k).thrown = none →
      (s.perform k).state._frame.w * (s._size.2 : ℚ)
        = (s.perform k).state._frame.h * (s._size.1 : ℚ)) ∧
    (s._nvidia._detector = none → (s.perform k).thrown = none) := by
  have hH' : (s._size.2 : ℚ) ≠ 0 := by
    have : (0 : ℚ) < (s._size.2 : ℚ) := by exact_mod_cast hH
    exact ne_of_gt this
  have key : ∀ (padding offset : ℚ × ℚ) (regions : List rect),
      (perform_frame s._size padding offset regions).w * (s._size.2 : ℚ)
        = (perform_frame s._size padding offset regions).h * (s._size.1 : ℚ) := by
    intro padding offset regions
    cases regions with
    | nil => rw [perform_frame_nil]; ring
    | cons r rs =>
      rw [perform_frame_cons]
      simp only [perform_aspect]
      field_simp
  refine ⟨key, ?_, ?_⟩
  · intro hok
    rw [(perform_stores_frame k s hok).1]
    exact key _ _ _
  · intro hd
    rw [perform_without_detector k s hd]
    rfl

/-- C3 (witness): a 1920x1080 input with one held region and no tracker. -/
theorem perform_frame_aspect_witness :
    0 < (instance_without_tracker (1920, 1080) (192, 108) (0, 0) [⟨800, 400, 200, 300⟩])._size.2 ∧
    ((instance_without_tracker (1920, 1080) (192, 108) (0, 0) [⟨800, 400, 200, 300⟩]).perform
        (sdk_accepting [] [] 0)).state._frame.w * 1080
      = ((instance_without_tracker (1920, 1080) (192, 108) (0, 0) [⟨800, 400, 200, 300⟩]).perform
        (sdk_accepting [] [] 0)).state._frame.h * 1920 := by
  have h := perform_frame_aspect (sdk_accepting [] [] 0)
    (instance_without_tracker (1920, 1080) (192, 108) (0, 0) [⟨800, 400, 200, 300⟩])
    (by decide)
  refine ⟨by decide, ?_⟩
  simpa [instance_without_tracker] using h.2.1 (h.2.2 rfl)

/-- C4: for a single region the frame after the bounding, padding and convert-to-frame
steps is the region expanded by the padding on every side. -/
theorem perform_preframe_single (size : Nat × Nat) (px py x y w h : ℚ) :
    perform_preframe size (px, py) [⟨x, y, w, h⟩] = ⟨x - px, y - py, w + 2 * px, h + 2 * py⟩ ∧
    perform_preframe (1920, 1080) (192, 108) [⟨800, 400, 200, 300⟩] = ⟨608, 292, 584, 516⟩ := by
  have key : ∀ (size : Nat × Nat) (px py x y w h : ℚ),
      perform_preframe size (px, py) [⟨x, y, w, h⟩]
        = ⟨x - px, y - py, w + 2 * px, h + 2 * py⟩ := by
    intro size px py x y w h
    simp only [perform_preframe, perform_boundary, List.foldl, perform_boundary_step, fbound.gt,
      if_true, perform_padding, fbound.sub, perform_convert, fbound.val, rect.left, rect.top]
    congr 1 <;> ring
  refine ⟨key size px py x y w h, ?_⟩
  rw [key]
  norm_num

/-! ### The confidence filter -/

theorem at_eq (d : facedetection) (idx : Nat) (h0 : idx < d.count)
    (hr : idx < d._rects.length) (hc : idx < d._rects_confidence.length) :
    facedetection.at d idx = Except.ok (d._rects[idx], d._rects_confidence[idx]) := by
  have h1 : d._bboxes.current ≠ 0 := by
    have : idx < d._bboxes.current := h0
    omega
  have h2 : ¬ idx > d._bboxes.current := by
    have : idx < d._bboxes.current := h0
    omega
  simp [facedetection.at, h1, h2, List.getElem?_eq_getElem hr, List.getElem?_eq_getElem hc]

theorem accept_slice (l : List (rect_t × ℚ)) (idx n : Nat) (h : idx < l.length) :
    accept ((l.drop idx).take (n + 1)) =
      (if l[idx].2 > 1 / 2 then [region_of l[idx].1] else []) ++
        accept ((l.drop (idx + 1)).take n) := by
  rw [List.drop_eq_getElem_cons h, List.take_succ_cons]
  simp only [accept, List.filter_cons, decide_eq_true_eq]
  split_ifs <;> simp

theorem take_succ_set (l : List rect) (i : Nat) (a : rect) (h : i < l.length) :
    (l.set i a).take (i + 1) = l.take i ++ [a] := by
  rw [List.set_eq_take_append_cons_drop, if_pos h]
  have hlen : (l.take i).length = i := by simp; omega
  rw [List.take_append_eq_append_take, hlen]
  simp [List.take_of_length_le, hlen]

theorem nvidia_track_loop_spec (d : facedetection) :
    ∀ (n idx ridx : Nat) (regions : List rect),
      idx + n ≤ d.count → d.count ≤ d._rects.length → d.count ≤ d._rects_confidence.length →
      ridx + n ≤ regions.length →
      (nvidia_track_loop d n idx ridx regions).thrown = none ∧
      (nvidia_track_loop d n idx ridx regions).state.2 =
        ridx + (accept (((d._rects.zip d._rects_confidence).drop idx).take n)).length ∧
      (nvidia_track_loop d n idx ridx regions).state.1.take
          (ridx + (accept (((d._rects.zip d._rects_confidence).drop idx).take n)).length) =
        regions.take ridx ++ accept (((d._rects.zip d._rects_confidence).drop idx).take n) ∧
      (nvidia_track_loop d n idx ridx regions).state.1.length = regions.length := by
  intro n
  induction n with
  | zero =>
    intro idx ridx regions _ _ _ _
    simp [nvidia_track_loop, outcome.ok, accept]
  | succ n ih =>
    intro idx ridx regions h1 h2 h3 h4
    have hr : idx < d._rects.length := by omega
    have hc : idx < d._rects_confidence.length := by omega
    have hz : idx < (d._rects.zip d._rects_confidence).length := by
      simp [List.length_zip]; omega
    have hat := at_eq d idx (by omega) hr hc
    rw [accept_slice _ idx n hz]
    simp only [List.getElem_zip]
    unfold nvidia_track_loop
    rw [hat]
    simp only
    by_cases hconf : d._rects_confidence[idx] > 1 / 2
    · have hlt : ridx < regions.length := by omega
      simp only [hconf, if_true, hlt]
      obtain ⟨i1, i2, i3, i4⟩ := ih (idx + 1) (ridx + 1)
        (regions.set ridx ⟨d._rects[idx].x, d._rects[idx].y, d._rects[idx].z, d._rects[idx].w⟩)
        (by omega) h2 h3 (by simp; omega)
      refine ⟨i1, ?_, ?_, ?_⟩
      · rw [i2]; simp; omega
      · have e : ridx + ([region_of d._rects[idx]] ++
            accept (List.take n (List.drop (idx + 1) (d._rects.zip d._rects_confidence)))).length
            = ridx + 1 + (accept (List.take n (List.drop (idx + 1)
                (d._rects.zip d._rects_confidence)))).length := by
          simp; omega
        rw [e, i3, take_succ_set _ _ _ hlt]
        simp [region_of]
      · rw [i4]; simp
    · simp only [hconf, if_false]
      obtain ⟨i1, i2, i3, i4⟩ := ih (idx + 1) ridx regions (by omega) h2 h3 (by omega)
      refine ⟨i1, ?_, ?_, i4⟩
      · rw [i2]; simp
      · simpa using i3

theorem resize_of_take (v : List rect) (n : Nat) (h : n ≤ v.length) :
    resize v n = v.take n := by
  simp [resize, Nat.sub_eq_zero_of_le h]

theorem resize_length (v : List rect) (n : Nat) : (resize v n).length = n := by
  simp [resize]; omega

/-- Outcome of `nvidia_track` after a tracking run whose results lie inside the buffers. -/
theorem nvidia_track_outcome (k : sdk) (s : autoframing_instance) (d : facedetection)
    (hok : (d.track k (s._capture.bind gs.rendertarget.get_texture)).thrown = none)
    (h8 : (d.track k (s._capture.bind gs.rendertarget.get_texture)).state.count
      ≤ ST_MAXIMUM_REGIONS)
    (hr : (d.track k (s._capture.bind gs.rendertarget.get_texture)).state.count
      ≤ (d.track k (s._capture.bind gs.rendertarget.get_texture)).state._rects.length)
    (hc : (d.track k (s._capture.bind gs.rendertarget.get_texture)).state.count
      ≤ (d.track k (s._capture.bind gs.rendertarget.get_texture)).state._rects_confidence.length) :
    (s.nvidia_track k d).thrown = none ∧
    (s.nvidia_track k d).state._regions =
      accepted_regions (d.track k (s._capture.bind gs.rendertarget.get_texture)).state ∧
    (s.nvidia_track k d).state._nvidia._detector =
      some (d.track k (s._capture.bind gs.rendertarget.get_texture)).state := by
  have hcap : (((s.emit event.cuda_context_enter).emit event.detector_track)._capture)
      = s._capture := rfl
  have hreg : ∀ (x : Option facedetection),
      ((((s.emit event.cuda_context_enter).emit event.detector_track).set_detector x)._regions)
        = s._regions := fun _ => rfl
  generalize hd : d.track k (s._capture.bind gs.rendertarget.get_texture) = r at *
  obtain ⟨l1, l2, l3, l4⟩ := nvidia_track_loop_spec r.state r.state.count 0 0
    (resize s._regions ST_MAXIMUM_REGIONS) (by omega) hr hc
    (by rw [resize_length]; omega)
  simp only [List.drop_zero, Nat.zero_add, List.take_zero, List.nil_append] at l2 l3
  unfold autoframing_instance.nvidia_track
  simp only [hcap, hreg, hd, hok, l1]
  refine ⟨rfl, ?_, rfl⟩
  show resize _ _ = _
  rw [resize_of_take _ _ (by rw [l2, ← l3]; simp [List.length_take]), l2, l3]
  rfl

/-- C5: when the tracking run returns with `count() <= 8` results inside its buffers,
`nvidia_track` returns and leaves as region list exactly the results with index below
`count()` whose confidence is strictly above 0.5, in detector order, each copied as
`(x, y, w, h) = (rect.x, rect.y, rect.z, rect.w)`. -/
theorem nvidia_track_regions (k : sdk) (s : autoframing_instance) (d : facedetection)
    (hok : (d.track k (s._capture.bind gs.rendertarget.get_texture)).thrown = none)
    (h8 : (d.track k (s._capture.bind gs.rendertarget.get_texture)).state.count
      ≤ ST_MAXIMUM_REGIONS)
    (hr : (d.track k (s._capture.bind gs.rendertarget.get_texture)).state.count
      ≤ (d.track k (s._capture.bind gs.rendertarget.get_texture)).state._rects.length)
    (hc : (d.track k (s._capture.bind gs.rendertarget.get_texture)).state.count
      ≤ (d.track k (s._capture.bind gs.rendertarget.get_texture)).state._rects_confidence.length) :
    (s.nvidia_track k d).thrown = none ∧
    (s.nvidia_track k d).state._regions =
      accepted_regions (d.track k (s._capture.bind gs.rendertarget.get_texture)).state ∧
    (s.nvidia_track k d).state._nvidia._detector =
      some (d.track k (s._capture.bind gs.rendertarget.get_texture)).state :=
  nvidia_track_outcome k s d hok h8 hr hc

/-- C5 (witness): four results with confidences 0.5, 0.51, 0.2 and 1: the first (exactly
0.5) and the third are dropped, the second and the fourth are kept in order. -/
theorem nvidia_track_regions_witness :
    ((instance_with_tracker (1920, 1080) (0, 0) (0, 0) [] sample_detector).nvidia_track
        (sdk_accepting
          [⟨10, 20, 30, 40⟩, ⟨1, 2, 3, 4⟩, ⟨5, 6, 7, 8⟩, ⟨9, 9, 9, 9⟩, ⟨0, 0, 0, 0⟩, ⟨0, 0, 0, 0⟩,
            ⟨0, 0, 0, 0⟩, ⟨0, 0, 0, 0⟩]
          [1 / 2, 51 / 100, 1 / 5, 1, 0, 0, 0, 0] 4)
        sample_detector).state._regions = [⟨1, 2, 3, 4⟩, ⟨9, 9, 9, 9⟩] := by
  have h := (nvidia_track_regions
    (sdk_accepting
      [⟨10, 20, 30, 40⟩, ⟨1, 2, 3, 4⟩, ⟨5, 6, 7, 8⟩, ⟨9, 9, 9, 9⟩, ⟨0, 0, 0, 0⟩, ⟨0, 0, 0, 0⟩,
        ⟨0, 0, 0, 0⟩, ⟨0, 0, 0, 0⟩]
      [1 / 2, 51 / 100, 1 / 5, 1, 0, 0, 0, 0] 4)
    (instance_with_tracker (1920, 1080) (0, 0) (0, 0) [] sample_detector) sample_detector
    (by simp [facedetection.track, instance_with_tracker, gs.rendertarget.get_texture, sample_detector, sdk_accepting, outcome.ok, result.SUCCESS])
    (by simp [facedetection.track, instance_with_tracker, gs.rendertarget.get_texture, sample_detector, sdk_accepting, outcome.ok, result.SUCCESS, facedetection.count, ST_MAXIMUM_REGIONS])
    (by simp [facedetection.track, instance_with_tracker, gs.rendertarget.get_texture, sample_detector, sdk_accepting, outcome.ok, result.SUCCESS, facedetection.count])
    (by simp [facedetection.track, instance_with_tracker, gs.rendertarget.get_texture, sample_detector, sdk_accepting, outcome.ok, result.SUCCESS, facedetection.count])).2.1
  rw [h]
  norm_num [facedetection.track, instance_with_tracker, gs.rendertarget.get_texture, sample_detector, sdk_accepting, outcome.ok, result.SUCCESS, facedetection.count, accepted_regions, accept, region_of, List.filter_cons]

/-! ### Size texts and `update` -/

theorem strrchr_none (c : Char) : ∀ (l : List Char), strrchr l c = none ↔ c ∉ l := by
  intro l
  induction l with
  | nil => simp [strrchr]
  | cons a rest ih =>
    unfold strrchr
    cases h : strrchr rest c with
    | some tail =>
      have : c ∈ rest := by
        by_contra hc
        rw [ih.mpr hc] at h
        exact Option.noConfusion h
      simp [this]
    | none =>
      have hc : c ∉ rest := ih.mp h
      by_cases hac : a = c
      · simp [hac]
      · have : ¬ c = a := fun e => hac e.symm
        simp [hac, hc, this]

theorem strrchr_some (c : Char) :
    ∀ (l tail : List Char), strrchr l c = some tail → ∃ rest, tail = c :: rest := by
  intro l
  induction l with
  | nil => intro tail h; simp [strrchr] at h
  | cons a rest ih =>
    intro tail h
    unfold strrchr at h
    cases hr : strrchr rest c with
    | some t =>
      rw [hr] at h
      simp only [Option.some.injEq] at h
      subst h
      exact ih t hr
    | none =>
      rw [hr] at h
      by_cases hac : a = c
      · simp only [hac, if_true, Option.some.injEq] at h
        exact ⟨rest, h.symm⟩
      · simp [hac] at h

theorem parse_text_as_size_percent (scan : String → Option ℚ) (text : String) (v : ℚ)
    (hv : scan text = some v) (hp : '%' ∈ text.data) :
    parse_text_as_size scan text = (true, v / 100) := by
  unfold parse_text_as_size
  rw [hv]
  cases h : strrchr text.data '%' with
  | none => exact absurd hp ((strrchr_none '%' text.data).mp h)
  | some tail =>
    obtain ⟨rest, ht⟩ := strrchr_some '%' text.data tail h
    subst ht
    simp

theorem parse_text_as_size_plain (scan : String → Option ℚ) (text : String) (v : ℚ)
    (hv : scan text = some v) (hp : '%' ∉ text.data) :
    parse_text_as_size scan text = (false, v) := by
  unfold parse_text_as_size
  rw [hv, (strrchr_none '%' text.data).mpr hp]

theorem parse_text_as_size_failed (scan : String → Option ℚ) (text : String)
    (hv : scan text = none) : parse_text_as_size scan text = (true, 1) := by
  unfold parse_text_as_size
  rw [hv]

/-- C6: `parse_text_as_size` returns `(true, v / 100)` when a leading number `v` is parsed and
the text contains a `%`, `(false, v)` when `v` is parsed and the text contains no `%`, and
`(true, 1)` when no number is parsed, with or without a `%`. -/
theorem parse_text_as_size_spec (scan : String → Option ℚ) (text : String) :
    (∀ v, scan text = some v → '%' ∈ text.data →
      parse_text_as_size scan text = (true, v / 100)) ∧
    (∀ v, scan text = some v → '%' ∉ text.data →
      parse_text_as_size scan text = (false, v)) ∧
    (scan text = none → parse_text_as_size scan text = (true, 1)) :=
  ⟨fun v hv hp => parse_text_as_size_percent scan text v hv hp,
   fun v hv hp => parse_text_as_size_plain scan text v hv hp,
   fun hv => parse_text_as_size_failed scan text hv⟩

/-- C6 (witness): the texts `10.0 %`, `50` and `%`. -/
theorem parse_text_as_size_spec_witness :
    parse_text_as_size sscanf_lf_table "10.0 %" = (true, 10 / 100) ∧
    parse_text_as_size sscanf_lf_table "50" = (false, 50) ∧
    parse_text_as_size sscanf_lf_table "%" = (true, 1) :=
  ⟨(parse_text_as_size_spec sscanf_lf_table "10.0 %").1 10 rfl (by decide),
   (parse_text_as_size_spec sscanf_lf_table "50").2.1 50 rfl (by decide),
   (parse_text_as_size_spec sscanf_lf_table "%").2.2 rfl⟩

theorem same_frame_state_refl (s : autoframing_instance) : s.same_frame_state s :=
  ⟨rfl, rfl, rfl, rfl, rfl, rfl, rfl, rfl, rfl, rfl⟩

theorem same_frame_state_trans (s t u : autoframing_instance)
    (h1 : s.same_frame_state t) (h2 : t.same_frame_state u) : s.same_frame_state u := by
  obtain ⟨a1, a2, a3, a4, a5, a6, a7, a8, a9, a10⟩ := h1
  obtain ⟨b1, b2, b3, b4, b5, b6, b7, b8, b9, b10⟩ := h2
  exact ⟨b1.trans a1, b2.trans a2, b3.trans a3, b4.trans a4, b5.trans a5, b6.trans a6,
    b7.trans a7, b8.trans a8, b9.trans a9, b10.trans a10⟩

theorem set_detector_same (s : autoframing_instance) (d : Option facedetection) :
    s.same_frame_state (s.set_detector d) :=
  ⟨rfl, rfl, rfl, rfl, rfl, rfl, rfl, rfl, rfl, rfl⟩

theorem emit_same (s : autoframing_instance) (e : event) : s.same_frame_state (s.emit e) :=
  ⟨rfl, rfl, rfl, rfl, rfl, rfl, rfl, rfl, rfl, rfl⟩

theorem nvidia_destroy_same (s : autoframing_instance) :
    s.same_frame_state s.nvidia_destroy := by
  unfold autoframing_instance.nvidia_destroy
  cases s._nvidia._detector with
  | none => exact same_frame_state_refl s
  | some d =>
    simp only
    exact same_frame_state_trans _ _ _ (emit_same s _)
      (same_frame_state_trans _ _ _ (emit_same _ _)
        (same_frame_state_trans _ _ _ (emit_same _ _)
          (same_frame_state_trans _ _ _ (emit_same _ _) (set_detector_same _ _))))

theorem nvidia_create_same (k : sdk) (s : autoframing_instance) :
    s.same_frame_state (s.nvidia_create k).state := by
  unfold autoframing_instance.nvidia_create
  by_cases ha : s._nvidia.available = true
  · simp only [ha, Bool.not_true, Bool.false_eq_true, if_false]
    cases facedetection.ctor k with
    | error e => exact emit_same s _
    | ok d =>
      simp only
      have h0 : s.same_frame_state
          { (s.emit event.cuda_context_enter).emit event.detector_create with
            events := ((s.emit event.cuda_context_enter).emit event.detector_create).events ++
              (if s._nvidia._detector.isSome then [event.detector_release] else []) } :=
        ⟨rfl, rfl, rfl, rfl, rfl, rfl, rfl, rfl, rfl, rfl⟩
      cases (d.enable_temporal_tracking k (!s._track_groups)).thrown with
      | some e => exact same_frame_state_trans _ _ _ h0 (set_detector_same _ _)
      | none =>
        simp only
        cases ((d.enable_temporal_tracking k (!s._track_groups)).state.set_limit k
            ST_MAXIMUM_REGIONS).thrown with
        | some e => exact same_frame_state_trans _ _ _ h0 (set_detector_same _ _)
        | none => exact same_frame_state_trans _ _ _ h0 (set_detector_same _ _)
  · simp only [ha, Bool.not_false, if_true]
    exact same_frame_state_refl s

theorem reinitialize_loop_same (k : sdk) :
    ∀ (es : List engine) (s : autoframing_instance),
      s.same_frame_state (autoframing_instance.reinitialize_loop k es s).1 := by
  intro es
  induction es with
  | nil => intro s; exact same_frame_state_refl s
  | cons e es ih =>
    intro s
    unfold autoframing_instance.reinitialize_loop
    by_cases he : e = engine.NVIDIA
    · rw [if_pos he]
      cases ht : (s.nvidia_create k).thrown with
      | none =>
        simp only [ht]
        exact nvidia_create_same k s
      | some x =>
        simp only [ht]
        exact same_frame_state_trans _ _ _ (nvidia_create_same k s)
          (same_frame_state_trans _ _ _ (nvidia_destroy_same _) (ih _))
    · rw [if_neg he]
      exact ih s

theorem reinitialize_same (k : sdk) (s : autoframing_instance) :
    s.same_frame_state ( autoframing_instance.reinitialize k s).state ∧
    ( autoframing_instance.reinitialize k s).thrown = none := by
  unfold autoframing_instance.reinitialize
  simp only [outcome.ok, and_true]
  have h1 : s.same_frame_state (if s._last_engine ≠ s._engine then s.nvidia_destroy else s) := by
    split
    · exact nvidia_destroy_same s
    · exact same_frame_state_refl s
  have h2 := reinitialize_loop_same k
    (if (if s._last_engine ≠ s._engine then s.nvidia_destroy else s)._nvidia.available &&
        ((if s._last_engine ≠ s._engine then s.nvidia_destroy else s)._engine = engine.AUTOMATIC ||
          (if s._last_engine ≠ s._engine then s.nvidia_destroy else s)._engine = engine.NVIDIA) then
      [engine.NVIDIA] else [])
    (if s._last_engine ≠ s._engine then s.nvidia_destroy else s)
  have h3 := same_frame_state_trans _ _ _ h1 h2
  obtain ⟨a1, a2, a3, a4, a5, a6, a7, a8, a9, a10⟩ := h3
  exact ⟨a1, a2, a3, a4, a5, a6, a7, a8, a9, a10⟩

theorem update_settings_layout (scan : String → Option ℚ) (s : autoframing_instance)
    (data : obs_data) :
    (s.update_settings scan data).1._size = s._size ∧
    (s.update_settings scan data).1._padding =
      (resolve_size (parse_text_as_size scan data.Layout_Padding_X) s._size.1,
       resolve_size (parse_text_as_size scan data.Layout_Padding_Y) s._size.2) ∧
    (s.update_settings scan data).1._offset =
      (resolve_size (parse_text_as_size scan data.Layout_Offset_X) s._size.1,
       resolve_size (parse_text_as_size scan data.Layout_Offset_Y) s._size.2) :=
  ⟨rfl, rfl, rfl⟩

theorem update_layout (scan : String → Option ℚ) (k : sdk) (s : autoframing_instance)
    (data : obs_data) :
    (s.update scan k data).thrown = none ∧
    (s.update scan k data).state._size = s._size ∧
    (s.update scan k data).state._padding =
      (resolve_size (parse_text_as_size scan data.Layout_Padding_X) s._size.1,
       resolve_size (parse_text_as_size scan data.Layout_Padding_Y) s._size.2) ∧
    (s.update scan k data).state._offset =
      (resolve_size (parse_text_as_size scan data.Layout_Offset_X) s._size.1,
       resolve_size (parse_text_as_size scan data.Layout_Offset_Y) s._size.2) := by
  obtain ⟨e1, e2, e3⟩ := update_settings_layout scan s data
  unfold autoframing_instance.update
  generalize s.update_settings scan data = p at *
  obtain ⟨s1, reinit⟩ := p
  simp only at e1 e2 e3 ⊢
  obtain ⟨⟨a1, _, _, _, _, a6, a7, _, _, _⟩, hok⟩ := reinitialize_same k s1
  cases reinit with
  | false => simp [outcome.ok, e1, e2, e3]
  | true =>
    simp only [if_true, hok, outcome.ok]
    exact ⟨trivial, a1.trans e1, a6.trans e2, a7.trans e3⟩

theorem resolve_size_percent (scan : String → Option ℚ) (text : String) (p : ℚ) (axis : Nat)
    (hv : scan text = some p) (hp : '%' ∈ text.data) :
    resolve_size (parse_text_as_size scan text) axis = p / 100 * (axis : ℚ) := by
  rw [parse_text_as_size_percent scan text p hv hp]
  simp [resolve_size]

theorem resolve_size_plain (scan : String → Option ℚ) (text : String) (v : ℚ) (axis : Nat)
    (hv : scan text = some v) (hp : '%' ∉ text.data) :
    resolve_size (parse_text_as_size scan text) axis = v := by
  rw [parse_text_as_size_plain scan text v hv hp]
  simp [resolve_size]

/-- C7: `update` returns, and stores for a padding or offset text with number `p` and a `%`
the value `p / 100 * W` on the x axis and `p / 100 * H` on the y axis, `(W, H)` being the
input size known at the call, and for a text with number `v` and no `%` the value `v`. -/
theorem update_resolves_sizes (scan : String → Option ℚ) (k : sdk) (s : autoframing_instance)
    (data : obs_data) :
    (s.update scan k data).thrown = none ∧
    (∀ p, scan data.Layout_Padding_X = some p → '%' ∈ data.Layout_Padding_X.data →
      (s.update scan k data).state._padding.1 = p / 100 * (s._size.1 : ℚ)) ∧
    (∀ p, scan data.Layout_Padding_Y = some p → '%' ∈ data.Layout_Padding_Y.data →
      (s.update scan k data).state._padding.2 = p / 100 * (s._size.2 : ℚ)) ∧
    (∀ p, scan data.Layout_Offset_X = some p → '%' ∈ data.Layout_Offset_X.data →
      (s.update scan k data).state._offset.1 = p / 100 * (s._size.1 : ℚ)) ∧
    (∀ p, scan data.Layout_Offset_Y = some p → '%' ∈ data.Layout_Offset_Y.data →
      (s.update scan k data).state._offset.2 = p / 100 * (s._size.2 : ℚ)) ∧
    (∀ v, scan data.Layout_Padding_X = some v → '%' ∉ data.Layout_Padding_X.data →
      (s.update scan k data).state._padding.1 = v) ∧
    (∀ v, scan data.Layout_Padding_Y = some v → '%' ∉ data.Layout_Padding_Y.data →
      (s.update scan k data).state._padding.2 = v) ∧
    (∀ v, scan data.Layout_Offset_X = some v → '%' ∉ data.Layout_Offset_X.data →
      (s.update scan k data).state._offset.1 = v) ∧
    (∀ v, scan data.Layout_Offset_Y = some v → '%' ∉ data.Layout_Offset_Y.data →
      (s.update scan k data).state._offset.2 = v) := by
  obtain ⟨h0, _, hp, ho⟩ := update_layout scan k s data
  rw [hp, ho]
  refine ⟨h0, ?_, ?_, ?_, ?_, ?_, ?_, ?_, ?_⟩
  · intro p hv hc; exact resolve_size_percent scan _ p _ hv hc
  · intro p hv hc; exact resolve_size_percent scan _ p _ hv hc
  · intro p hv hc; exact resolve_size_percent scan _ p _ hv hc
  · intro p hv hc; exact resolve_size_percent scan _ p _ hv hc
  · intro v hv hc; exact resolve_size_plain scan _ v _ hv hc
  · intro v hv hc; exact resolve_size_plain scan _ v _ hv hc
  · intro v hv hc; exact resolve_size_plain scan _ v _ hv hc
  · intro v hv hc; exact resolve_size_plain scan _ v _ hv hc

/-- C7 (witness): at input size 200x120, padding texts `50%` and `50` resolve to 100 and 50,
offset texts `50` and `50%` to 50 and 60. -/
theorem update_resolves_sizes_witness :
    ((instance_without_tracker (200, 120) (0, 0) (0, 0) []).update sscanf_lf_table
        (sdk_accepting [] [] 0) ⟨0, "50%", "50", "50", "50%", 0⟩).state._padding = (100, 50) ∧
    ((instance_without_tracker (200, 120) (0, 0) (0, 0) []).update sscanf_lf_table
        (sdk_accepting [] [] 0) ⟨0, "50%", "50", "50", "50%", 0⟩).state._offset = (50, 60) := by
  have h := update_resolves_sizes sscanf_lf_table (sdk_accepting [] [] 0)
    (instance_without_tracker (200, 120) (0, 0) (0, 0) []) ⟨0, "50%", "50", "50", "50%", 0⟩
  have h1 := h.2.1 50 rfl (by decide)
  have h2 := h.2.2.2.2.2.2.1 50 rfl (by decide)
  have h3 := h.2.2.2.2.2.2.2.1 50 rfl (by decide)
  have h4 := h.2.2.2.2.1 50 rfl (by decide)
  constructor
  · refine Prod.ext ?_ ?_
    · rw [h1]; norm_num [instance_without_tracker]
    · rw [h2]
  · refine Prod.ext ?_ ?_
    · rw [h3]
    · rw [h4]; norm_num [instance_without_tracker]

/-! ### Engine lifecycle -/

theorem nvidia_destroy_engine (s : autoframing_instance) :
    s.nvidia_destroy._nvidia._detector = none ∧
    s.nvidia_destroy._nvidia.available = s._nvidia.available ∧
    s.nvidia_destroy._last_engine = s._last_engine := by
  unfold autoframing_instance.nvidia_destroy
  cases h : s._nvidia._detector with
  | none => exact ⟨h, rfl, rfl⟩
  | some d => simp [autoframing_instance.emit, autoframing_instance.set_detector]

theorem nvidia_create_engine (k : sdk) (s : autoframing_instance) :
    (s.nvidia_create k).state._nvidia.available = s._nvidia.available ∧
    (s.nvidia_create k).state._last_engine = s._last_engine := by
  unfold autoframing_instance.nvidia_create
  by_cases ha : s._nvidia.available = true
  · simp only [ha, Bool.not_true, Bool.false_eq_true, if_false]
    cases facedetection.ctor k with
    | error e => simp [outcome.throw, autoframing_instance.emit, ha]
    | ok d =>
      simp only
      cases (d.enable_temporal_tracking k (!s._track_groups)).thrown with
      | some e =>
        simp [outcome.throw, autoframing_instance.emit, autoframing_instance.set_detector, ha]
      | none =>
        simp only
        cases ((d.enable_temporal_tracking k (!s._track_groups)).state.set_limit k
            ST_MAXIMUM_REGIONS).thrown with
        | some e =>
          simp [outcome.throw, autoframing_instance.emit, autoframing_instance.set_detector, ha]
        | none =>
          simp [autoframing_instance.emit, autoframing_instance.set_detector, ha]
  · simp [ha, outcome.throw]

theorem nvidia_create_succeeds (k : sdk) (s : autoframing_instance)
    (ha : s._nvidia.available = true) :
    ((s.nvidia_create k).thrown = none ↔ creation_succeeds k s._track_groups) ∧
    ((s.nvidia_create k).thrown = none →
      (s.nvidia_create k).state._nvidia._detector.isSome = true) := by
  unfold autoframing_instance.nvidia_create creation_succeeds
  simp only [ha, Bool.not_true, Bool.false_eq_true, if_false]
  cases hc : facedetection.ctor k with
  | error e => simp [outcome.throw]
  | ok d =>
    simp only [Except.ok.injEq, exists_eq_left']
    cases h1 : (d.enable_temporal_tracking k (!s._track_groups)).thrown with
    | some e => simp [outcome.throw]
    | none =>
      simp only
      cases h2 : ((d.enable_temporal_tracking k (!s._track_groups)).state.set_limit k
          ST_MAXIMUM_REGIONS).thrown with
      | some e => simp [outcome.throw]
      | none => simp [autoframing_instance.set_detector]

theorem reinitialize_loop_nil (k : sdk) (s : autoframing_instance) :
    autoframing_instance.reinitialize_loop k [] s = (s, false) := rfl

theorem reinitialize_loop_single (k : sdk) (s : autoframing_instance) :
    autoframing_instance.reinitialize_loop k [engine.NVIDIA] s =
      (match (s.nvidia_create k).thrown with
       | none => ((s.nvidia_create k).state, true)
       | some _ => ((s.nvidia_create k).state.nvidia_destroy, false)) := by
  unfold autoframing_instance.reinitialize_loop
  simp only [if_true]
  cases (s.nvidia_create k).thrown with
  | none => rfl
  | some e => rfl

/-- What `reinitialize` leaves behind on a state satisfying the tracker invariant. -/
theorem reinitialize_outcome (k : sdk) (s : autoframing_instance) (hinv : s.tracker_inv) :
    ( autoframing_instance.reinitialize k s).thrown = none ∧
    (( autoframing_instance.reinitialize k s).state._nvidia._detector.isSome = true ↔
      (s._nvidia.available = true ∧
        (s._engine = engine.AUTOMATIC ∨ s._engine = engine.NVIDIA) ∧
        creation_succeeds k s._track_groups)) ∧
    ( autoframing_instance.reinitialize k s).state._last_engine = s._engine ∧
    ( autoframing_instance.reinitialize k s).state.tracker_inv := by
  obtain ⟨d1, d2, d3⟩ := nvidia_destroy_engine s
  obtain ⟨c1, _, _, _, c5, _, _, c8, _, _⟩ := nvidia_destroy_same s
  -- the state after the engine-switch block
  have hs1 : ∃ s1 : autoframing_instance,
      (if s._last_engine ≠ s._engine then s.nvidia_destroy else s) = s1 ∧
      s1._nvidia.available = s._nvidia.available ∧ s1._engine = s._engine ∧
      s1._track_groups = s._track_groups ∧
      (s1._nvidia._detector.isSome = true →
        s._last_engine = s._engine ∧ s._nvidia._detector.isSome = true) := by
    by_cases he : s._last_engine = s._engine
    · refine ⟨s, by simp [he], rfl, rfl, rfl, fun h => ⟨he, h⟩⟩
    · refine ⟨s.nvidia_destroy, by simp [he], d2, c8, c5, ?_⟩
      intro h
      rw [d1] at h
      exact absurd h (by simp)
  obtain ⟨s1, e1, a1, a2, a3, a4⟩ := hs1
  unfold autoframing_instance.reinitialize
  simp only [e1, outcome.ok]
  by_cases hcand : s1._nvidia.available = true ∧
      (s1._engine = engine.AUTOMATIC ∨ s1._engine = engine.NVIDIA)
  · have hif : (s1._nvidia.available &&
        (decide (s1._engine = engine.AUTOMATIC) || decide (s1._engine = engine.NVIDIA))) = true := by
      simp [hcand.1, hcand.2]
    simp only [hif, if_true, reinitialize_loop_single]
    obtain ⟨n1, n2⟩ := nvidia_create_succeeds k s1 hcand.1
    obtain ⟨g1, g2⟩ := nvidia_create_engine k s1
    obtain ⟨_, _, _, _, _, _, _, g8, _, _⟩ := nvidia_create_same k s1
    rw [a3] at n1
    cases ht : (s1.nvidia_create k).thrown with
    | none =>
      simp only
      have hsucc := n1.mp ht
      refine ⟨trivial, ⟨fun _ => ⟨a1 ▸ hcand.1, a2 ▸ hcand.2, hsucc⟩, fun _ => n2 ht⟩,
        g8.trans a2, ?_⟩
      intro _
      refine ⟨g1.trans hcand.1, ?_⟩
      show (s1.nvidia_create k).state._engine = _ ∨ (s1.nvidia_create k).state._engine = _
      rw [g8]
      exact hcand.2
    | some e =>
      simp only
      obtain ⟨x1, x2, x3⟩ := nvidia_destroy_engine (s1.nvidia_create k).state
      obtain ⟨_, _, _, _, _, _, _, x8, _, _⟩ := nvidia_destroy_same (s1.nvidia_create k).state
      have hns : ¬ creation_succeeds k s._track_groups := by
        intro h
        rw [n1.mpr h] at ht
        exact Option.noConfusion ht
      refine ⟨trivial, ⟨?_, ?_⟩, (x8.trans g8).trans a2, ?_⟩
      · intro h
        rw [x1] at h
        exact absurd h (by simp)
      · intro h
        exact absurd h.2.2 hns
      · intro h
        change (s1.nvidia_create k).state.nvidia_destroy._nvidia._detector.isSome = true at h
        rw [x1] at h
        exact absurd h (by simp)
  · have hif : (s1._nvidia.available &&
        (decide (s1._engine = engine.AUTOMATIC) || decide (s1._engine = engine.NVIDIA))) = false := by
      by_cases hav : s1._nvidia.available = true
      · have : ¬ (s1._engine = engine.AUTOMATIC ∨ s1._engine = engine.NVIDIA) :=
          fun h => hcand ⟨hav, h⟩
        simp only [not_or] at this
        simp [this.1, this.2]
      · simp [hav]
    simp only [hif, Bool.false_eq_true, if_false, reinitialize_loop_nil]
    have hnone : s1._nvidia._detector.isSome = true → False := by
      intro h
      obtain ⟨q1, q2⟩ := a4 h
      obtain ⟨r1, r2⟩ := hinv q2
      apply hcand
      refine ⟨a1.trans r1, ?_⟩
      rw [a2, ← q1]
      exact r2
    refine ⟨trivial, ⟨fun h => (hnone h).elim, ?_⟩, a2, fun h => (hnone h).elim⟩
    intro h
    exact (hcand ⟨a1.trans h.1, by rw [a2]; exact h.2.1⟩).elim

/-- C9: on a state satisfying the tracker invariant, `reinitialize` returns without
exception; afterwards a tracker is held if and only if the NVIDIA backend is available, the
engine preference is AUTOMATIC or NVIDIA and construction, configuration and `load()` all
succeeded; `_last_engine` equals the requested engine, and the invariant holds again. -/
theorem reinitialize_tracker (k : sdk) (s : autoframing_instance) (hinv : s.tracker_inv) :
    ( autoframing_instance.reinitialize k s).thrown = none ∧
    (( autoframing_instance.reinitialize k s).state._nvidia._detector.isSome = true ↔
      (s._nvidia.available = true ∧
        (s._engine = engine.AUTOMATIC ∨ s._engine = engine.NVIDIA) ∧
        creation_succeeds k s._track_groups)) ∧
    ( autoframing_instance.reinitialize k s).state._last_engine = s._engine ∧
    ( autoframing_instance.reinitialize k s).state.tracker_inv :=
  reinitialize_outcome k s hinv

theorem tracker_inv_congr (s t : autoframing_instance)
    (h1 : t._nvidia._detector.isSome = true → s._nvidia._detector.isSome = true)
    (h2 : t._nvidia.available = s._nvidia.available) (h3 : t._last_engine = s._last_engine)
    (hs : s.tracker_inv) : t.tracker_inv := by
  intro h
  rw [h2, h3]
  exact hs (h1 h)

theorem update_settings_engine (scan : String → Option ℚ) (s : autoframing_instance)
    (data : obs_data) :
    (s.update_settings scan data).1._nvidia = s._nvidia ∧
    (s.update_settings scan data).1._last_engine = s._last_engine :=
  ⟨rfl, rfl⟩

/-- The invariant is kept by `update`. -/
theorem update_tracker_inv (scan : String → Option ℚ) (k : sdk) (s : autoframing_instance)
    (data : obs_data) (hinv : s.tracker_inv) : (s.update scan k data).state.tracker_inv := by
  obtain ⟨e1, e2⟩ := update_settings_engine scan s data
  unfold autoframing_instance.update
  generalize s.update_settings scan data = p at *
  obtain ⟨s1, reinit⟩ := p
  simp only at e1 e2 ⊢
  have h1 : s1.tracker_inv :=
    tracker_inv_congr s s1 (by rw [e1]; exact id) (by rw [e1]) e2 hinv
  obtain ⟨r1, _, _, r4⟩ := reinitialize_outcome k s1 h1
  cases reinit with
  | false => simpa [outcome.ok] using h1
  | true =>
    simp only [if_true, r1, outcome.ok]
    exact tracker_inv_congr _ _ id rfl rfl r4

/-- The invariant is kept by `video_tick`. -/
theorem video_tick_tracker_inv (s : autoframing_instance) (target : Option (Nat × Nat))
    (hinv : s.tracker_inv) : (s.video_tick target).tracker_inv := by
  unfold autoframing_instance.video_tick
  cases target with
  | none => exact tracker_inv_congr s _ id rfl rfl hinv
  | some src => exact tracker_inv_congr s _ id rfl rfl hinv

theorem nvidia_load_no_detector (p : process) (s : autoframing_instance)
    (h : s._nvidia._detector = none) : (s.nvidia_load p)._nvidia._detector = none := by
  have hu : ∀ t : autoframing_instance, t.nvidia_unload._nvidia._detector = none := by
    intro t
    unfold autoframing_instance.nvidia_unload
    exact (nvidia_destroy_engine t).1
  unfold autoframing_instance.nvidia_load
  simp only []
  split_ifs <;> first | exact hu _ | exact h

/-- The invariant holds in every state the constructor produces. -/
theorem ctor_tracker_inv (scan : String → Option ℚ) (p : process) (k : sdk) (fresh : Bool)
    (settings : obs_data) :
    ( autoframing_instance.ctor scan p k fresh settings).state.tracker_inv := by
  unfold autoframing_instance.ctor
  apply update_tracker_inv
  intro h
  rw [nvidia_load_no_detector p _ rfl] at h
  exact absurd h (by simp)

/-- The invariant is kept by `perform`. -/
theorem perform_tracker_inv (k : sdk) (s : autoframing_instance) (hinv : s.tracker_inv) :
    (s.perform k).state.tracker_inv := by
  unfold autoframing_instance.perform
  cases hd : s._nvidia._detector with
  | none =>
    simp only [outcome.ok]
    exact tracker_inv_congr s _ id rfl rfl hinv
  | some d =>
    have hs : s._nvidia._detector.isSome = true := by rw [hd]; rfl
    have ht : (s.nvidia_track k d).state._nvidia.available = s._nvidia.available ∧
        (s.nvidia_track k d).state._last_engine = s._last_engine := by
      unfold autoframing_instance.nvidia_track
      simp only [autoframing_instance.emit, autoframing_instance.set_detector]
      split
      · simp [outcome.throw]
      · split <;> simp [outcome.throw, outcome.ok]
    simp only
    cases (s.nvidia_track k d).thrown with
    | none =>
      simp only [outcome.ok]
      exact tracker_inv_congr s _ (fun _ => hs) ht.1 ht.2 hinv
    | some e =>
      simp only [outcome.throw]
      exact tracker_inv_congr s _ (fun _ => hs) ht.1 ht.2 hinv

/-- C9 (witness): a filter holding a tracker, re-initialised against an SDK whose
`AR_Load` fails: no exception leaves `reinitialize` and no tracker is held afterwards. -/
theorem reinitialize_tracker_witness :
    (instance_with_tracker (1920, 1080) (0, 0) (0, 0) [] sample_detector).tracker_inv ∧
    ( autoframing_instance.reinitialize (sdk_failing_load (-10))
        (instance_with_tracker (1920, 1080) (0, 0) (0, 0) [] sample_detector)).thrown = none ∧
    ( autoframing_instance.reinitialize (sdk_failing_load (-10))
        (instance_with_tracker (1920, 1080) (0, 0) (0, 0) [] sample_detector)).state._nvidia._detector
      = none := by
  have hinv : (instance_with_tracker (1920, 1080) (0, 0) (0, 0) [] sample_detector).tracker_inv :=
    fun _ => ⟨rfl, Or.inl rfl⟩
  have h := reinitialize_tracker (sdk_failing_load (-10))
    (instance_with_tracker (1920, 1080) (0, 0) (0, 0) [] sample_detector) hinv
  refine ⟨hinv, h.1, ?_⟩
  have hn : ¬ creation_succeeds (sdk_failing_load (-10))
      (instance_with_tracker (1920, 1080) (0, 0) (0, 0) [] sample_detector)._track_groups := by
    rintro ⟨d, _, _, _, h4⟩
    simp [facedetection.load, sdk_failing_load, sdk_accepting, result.SUCCESS, outcome.throw] at h4
  have h2 := h.2.1
  cases hd : ( autoframing_instance.reinitialize (sdk_failing_load (-10))
      (instance_with_tracker (1920, 1080) (0, 0) (0, 0) [] sample_detector)).state._nvidia._detector with
  | none => rfl
  | some d =>
    rw [hd] at h2
    exact absurd (h2.mp rfl).2.2 hn

/-! ### States without tracker, configuration after loading -/

theorem ctor_failing_load (fresh : Bool) :
    autoframing_instance.ctor sscanf_lf_table process_with_nvidia (sdk_failing_load (-10)) fresh
        get_defaults2 =
      outcome.ok
        { _size := (0, 0)
          _vb := quad_vertices
          _capture := some { format := gs.color_format.GS_RGBA, _texture := none }
          _capture_fresh := fresh
          _force_reinit := false
          _track_groups := false
          _padding := (0, 0)
          _offset := (0, 0)
          _engine := engine.AUTOMATIC
          _last_engine := engine.AUTOMATIC
          _nvidia := { available := true, _cobs := some (),
                       _ar := some { _sdk_path := "", _model_path := "models" },
                       _detector := none }
          _regions := List.replicate 8 ⟨0, 0, 0, 0⟩
          _frame := ⟨0, 0, 0, 0⟩
          events := [event.cuda_context_enter, event.detector_create,
            event.cuda_context_enter, event.cuda_context_synchronize,
            event.cuda_stream_synchronize, event.detector_release] } := by
  have p1 : parse_text_as_size sscanf_lf_table "10.0 %" = (true, 10 / 100) :=
    parse_text_as_size_percent _ _ _ rfl (by decide)
  have p2 : parse_text_as_size sscanf_lf_table "0.0 %" = (true, 0 / 100) :=
    parse_text_as_size_percent _ _ _ rfl (by decide)
  have p3 : parse_text_as_size sscanf_lf_table "-5.0 %" = (true, -5 / 100) :=
    parse_text_as_size_percent _ _ _ rfl (by decide)
  simp [autoframing_instance.ctor, autoframing_instance.nvidia_load, process_with_nvidia,
    autoframing_instance.update, autoframing_instance.update_settings, get_defaults2, p1, p2, p3,
    autoframing_instance.reinitialize, autoframing_instance.reinitialize_loop, outcome.ok,
    outcome.throw, engine.of_int64, engine.AUTOMATIC, engine.NVIDIA, ST_MAXIMUM_REGIONS,
    quad_vertices, autoframing_instance.nvidia_create, autoframing_instance.nvidia_destroy,
    autoframing_instance.emit, autoframing_instance.set_detector, facedetection.ctor,
    facedetection.set_limit, facedetection.enable_temporal_tracking, facedetection.load,
    feature.set_Temporal, sdk_failing_load, sdk_accepting, result.SUCCESS]

/-- C8 (code evaluation): a filter constructed with the default settings whose tracker
fails to load (`AR_Load` returns an error) holds no tracker; after a tick at 1920x1080,
`perform` frames the eight zero regions held from construction and stores `(0, 0, 0, 0)`,
not the full input rectangle. -/
theorem perform_without_tracker_frames_held_regions :
    (( autoframing_instance.ctor sscanf_lf_table process_with_nvidia (sdk_failing_load (-10))
        false get_defaults2).state.video_tick (some (1920, 1080)))._nvidia._detector = none ∧
    ((( autoframing_instance.ctor sscanf_lf_table process_with_nvidia (sdk_failing_load (-10))
        false get_defaults2).state.video_tick (some (1920, 1080))).perform
          (sdk_accepting [] [] 0)).state._frame = ⟨0, 0, 0, 0⟩ ∧
    ((( autoframing_instance.ctor sscanf_lf_table process_with_nvidia (sdk_failing_load (-10))
        false get_defaults2).state.video_tick (some (1920, 1080))).perform
          (sdk_accepting [] [] 0)).state._frame ≠ ⟨0, 0, 1920, 1080⟩ := by
  have hf : ((( autoframing_instance.ctor sscanf_lf_table process_with_nvidia
      (sdk_failing_load (-10)) false get_defaults2).state.video_tick
        (some (1920, 1080))).perform (sdk_accepting [] [] 0)).state._frame = ⟨0, 0, 0, 0⟩ := by
    rw [ctor_failing_load]
    norm_num [outcome.ok, autoframing_instance.video_tick, autoframing_instance.perform,
      perform_frame, perform_boundary, perform_boundary_step, fbound.gt, perform_padding,
      fbound.sub, perform_convert, fbound.val, rect.left, rect.top, perform_bias,
      perform_offset, perform_aspect, List.replicate]
  refine ⟨?_, hf, ?_⟩
  · rw [ctor_failing_load]
    rfl
  · rw [hf]
    intro h
    have := congrArg rect.w h
    norm_num at this

/-- The member `_loaded` is not written by `load`. -/
theorem load_keeps_loaded (k : sdk) (d : facedetection) :
    (d.load k).state._loaded = d._loaded := by
  unfold facedetection.load
  simp only []
  split_ifs <;> rfl

/-- C10 (code evaluation): `load` leaves `_loaded` as the constructor set it, so on a
constructed tracker whose `load()` has succeeded `enable_temporal_tracking(false)` and
`set_limit(3)` return normally and change the configuration. -/
theorem configure_after_load_accepted :
    ∃ d : facedetection, facedetection.ctor (sdk_accepting [] [] 0) = Except.ok d ∧
      (d.load (sdk_accepting [] [] 0)).thrown = none ∧
      (d.load (sdk_accepting [] [] 0)).state._feature.loaded = true ∧
      (d.load (sdk_accepting [] [] 0)).state._feature.Temporal = some 1 ∧
      (((d.load (sdk_accepting [] [] 0)).state.enable_temporal_tracking
        (sdk_accepting [] [] 0) false).thrown = none) ∧
      (((d.load (sdk_accepting [] [] 0)).state.enable_temporal_tracking
        (sdk_accepting [] [] 0) false).state._feature.Temporal = some 0) ∧
      (d.load (sdk_accepting [] [] 0)).state._rects.length = 1 ∧
      (((d.load (sdk_accepting [] [] 0)).state.set_limit (sdk_accepting [] [] 0) 3).thrown
        = none) ∧
      (((d.load (sdk_accepting [] [] 0)).state.set_limit (sdk_accepting [] [] 0) 3).state._rects.length
        = 3) := by
  refine ⟨_, rfl, ?_⟩
  simp [facedetection.load, facedetection.enable_temporal_tracking, facedetection.set_limit,
    feature.set_Temporal, sdk_accepting, result.SUCCESS, outcome.ok, outcome.throw,
    ar.get_model_path]

/-! ### The tracker interface and teardown -/

/-- C11 (code evaluation): with one tracked face in eight slots, `at(1, confidence)` does
not fail: the guard compares with `index > current`, so `index = count()` passes and the
stale slot 1 is returned with its stale confidence. The valid index 0 returns the face. -/
theorem at_count_returns_stale_slot :
    detector_with_one_face.count = 1 ∧
    facedetection.at detector_with_one_face 1 = Except.ok (⟨7, 7, 7, 7⟩, 3 / 4) ∧
    facedetection.at detector_with_one_face 0 = Except.ok (⟨100, 100, 50, 50⟩, 9 / 10) ∧
    facedetection.at detector_with_one_face 2 =
      Except.error (exception.out_of_range "index too large") := by
  refine ⟨rfl, ?_, ?_, ?_⟩ <;>
    simp [facedetection.at, detector_with_one_face, sample_detector]

theorem enable_temporal_tracking_loaded (k : sdk) (d : facedetection) (b : Bool) :
    (d.enable_temporal_tracking k b).state._loaded = d._loaded := by
  unfold facedetection.enable_temporal_tracking
  split <;> rfl

theorem set_limit_loaded (k : sdk) (d : facedetection) (n : Nat) :
    (d.set_limit k n).state._loaded = d._loaded := by
  unfold facedetection.set_limit
  simp only []
  split_ifs <;> rfl

theorem track_loaded (k : sdk) (d : facedetection) (t : Option gs.texture) :
    (d.track k t).state._loaded = d._loaded := by
  unfold facedetection.track
  cases t with
  | none => rfl
  | some tex =>
    simp only []
    cases hc : k.input_create tex <;> cases hu : k.input_update <;>
      by_cases hr : k.AR_Run = result.SUCCESS <;>
      by_cases ho : k.AR_SetObject "NvAR_Parameter_Input_Image" = result.SUCCESS <;>
      cases hi : d._input_texture <;>
      simp [outcome.throw, outcome.ok, hr, ho] <;>
      split_ifs <;> simp

theorem ctor_loaded (k : sdk) (d : facedetection) (h : facedetection.ctor k = Except.ok d) :
    d._loaded = false := by
  unfold facedetection.ctor at h
  simp only [] at h
  split_ifs at h
  split at h
  · exact Except.noConfusion h
  · split at h
    · exact Except.noConfusion h
    · simp only [Except.ok.injEq] at h
      rw [← h, enable_temporal_tracking_loaded, set_limit_loaded]

/-- C12: `set_limit(0)` on a tracker that is not marked loaded and `track` with a null
texture both throw `std::invalid_argument` and leave the tracker exactly as it was. -/
theorem invalid_arguments_rejected (k : sdk) (d : facedetection) (hl : d._loaded = false) :
    d.set_limit k 0 =
      outcome.throw d (exception.invalid_argument "limit must be greater or equal to 1") ∧
    d.track k none = outcome.throw d (exception.invalid_argument "texture is nullptr") := by
  constructor
  · simp [facedetection.set_limit, hl]
  · rfl

/-- C12 (witness): the tracker `nvidia_create` leaves behind. -/
theorem invalid_arguments_rejected_witness :
    sample_detector._loaded = false ∧
    (sample_detector.set_limit (sdk_accepting [] [] 0) 0).state = sample_detector ∧
    (sample_detector.track (sdk_accepting [] [] 0) none).state = sample_detector := by
  have h := invalid_arguments_rejected (sdk_accepting [] [] 0) sample_detector rfl
  refine ⟨rfl, ?_, ?_⟩
  · rw [h.1]; rfl
  · rw [h.2]; rfl

/-- C13: destroying a filter that holds a tracker enters the CUDA context, synchronises
the context, then the stream, then releases the tracker, then the SDK and CUDA handles and
the capture target; afterwards no tracker is held and the backend is marked unavailable. -/
theorem dtor_trace (s : autoframing_instance) (d : facedetection)
    (hd : s._nvidia._detector = some d) :
    s.dtor.events =
      s.events ++ [event.cuda_context_enter, event.cuda_context_synchronize,
        event.cuda_stream_synchronize, event.detector_release]
        ++ (if s._nvidia._ar.isSome then [event.ar_release] else [])
        ++ (if s._nvidia._cobs.isSome then [event.cobs_release] else [])
        ++ (if s._capture.isSome then [event.capture_release] else []) ∧
    s.dtor._nvidia._detector = none ∧ s.dtor._nvidia.available = false ∧
    s.dtor._nvidia._ar = none ∧ s.dtor._nvidia._cobs = none ∧ s.dtor._capture = none := by
  simp [autoframing_instance.dtor, autoframing_instance.nvidia_unload,
    autoframing_instance.nvidia_destroy, hd, autoframing_instance.emit,
    autoframing_instance.set_detector]

/-- C13 (witness): a filter holding a tracker, its handles and a capture target. -/
theorem dtor_trace_witness :
    (instance_with_tracker (1920, 1080) (0, 0) (0, 0) [] sample_detector).dtor.events =
      [event.cuda_context_enter, event.cuda_context_synchronize,
        event.cuda_stream_synchronize, event.detector_release, event.ar_release,
        event.cobs_release, event.capture_release] ∧
    (instance_with_tracker (1920, 1080) (0, 0) (0, 0) [] sample_detector).dtor._nvidia._detector
      = none := by
  have h := dtor_trace (instance_with_tracker (1920, 1080) (0, 0) (0, 0) [] sample_detector)
    sample_detector rfl
  refine ⟨?_, h.2.1⟩
  rw [h.1]
  rfl

/-! ### Re-initialisation on update -/

theorem update_settings_flag (scan : String → Option ℚ) (s : autoframing_instance)
    (data : obs_data) :
    ((s.update_settings scan data).2 = true ↔
      (s._force_reinit = true ∨ s._track_groups ≠ decide (data.Tracking_Mode ≠ 0) ∨
        s._engine ≠ engine.of_int64 data.Advanced_Engine)) ∧
    (s.update_settings scan data).1._track_groups = decide (data.Tracking_Mode ≠ 0) ∧
    (s.update_settings scan data).1._engine = engine.of_int64 data.Advanced_Engine ∧
    (s.update_settings scan data).1._force_reinit = s._force_reinit ∧
    (s.update_settings scan data).1._nvidia = s._nvidia ∧
    (s.update_settings scan data).1._last_engine = s._last_engine ∧
    (s.update_settings scan data).1.events = s.events := by
  refine ⟨?_, rfl, rfl, rfl, rfl, rfl, rfl⟩
  simp only [autoframing_instance.update_settings, Bool.or_eq_true, bne_iff_ne, ne_eq, or_assoc]

theorem update_unfold (scan : String → Option ℚ) (k : sdk) (s : autoframing_instance)
    (data : obs_data) :
    s.update scan k data =
      if (s.update_settings scan data).2 = true then
        outcome.ok { ( autoframing_instance.reinitialize k (s.update_settings scan data).1).state with
          _force_reinit := false }
      else outcome.ok (s.update_settings scan data).1 := by
  unfold autoframing_instance.update
  generalize s.update_settings scan data = p
  obtain ⟨s1, reinit⟩ := p
  have hok := (reinitialize_same k s1).2
  cases reinit with
  | false => simp
  | true => simp [hok]

theorem update_force_reinit (scan : String → Option ℚ) (k : sdk) (s : autoframing_instance)
    (data : obs_data) :
    (s.update scan k data).state._force_reinit = false ∧
    (s.update scan k data).state._track_groups = decide (data.Tracking_Mode ≠ 0) ∧
    (s.update scan k data).state._engine = engine.of_int64 data.Advanced_Engine := by
  obtain ⟨f1, f2, f3, f4, _, _, _⟩ := update_settings_flag scan s data
  rw [update_unfold]
  by_cases hf : (s.update_settings scan data).2 = true
  · rw [if_pos hf]
    obtain ⟨⟨_, _, _, _, a5, _, _, a8, _, _⟩, _⟩ :=
      reinitialize_same k (s.update_settings scan data).1
    exact ⟨rfl, a5.trans f2, a8.trans f3⟩
  · rw [if_neg hf]
    refine ⟨?_, f2, f3⟩
    show (s.update_settings scan data).1._force_reinit = false
    rw [f4]
    by_contra hne
    exact hf (f1.mpr (Or.inl (by simpa using hne)))

/-- C14: `update` runs `reinitialize` exactly when the force flag is set, or the group mode
differs from the stored one, or the engine preference differs from the stored one; when it
does not, the engine state and the recorded calls are untouched. After any `update` the
force flag is cleared, so an `update` with the same tracking mode and engine (whatever its
padding and offset texts) does not re-initialise. -/
theorem update_reinitializes_iff (scan : String → Option ℚ) (k k2 : sdk)
    (s : autoframing_instance) (data data2 : obs_data)
    (hm : data2.Tracking_Mode = data.Tracking_Mode)
    (he : data2.Advanced_Engine = data.Advanced_Engine) :
    ((s.update_settings scan data).2 = true ↔
      (s._force_reinit = true ∨ s._track_groups ≠ decide (data.Tracking_Mode ≠ 0) ∨
        s._engine ≠ engine.of_int64 data.Advanced_Engine)) ∧
    ((s.update_settings scan data).2 = true →
      s.update scan k data = outcome.ok
        { ( autoframing_instance.reinitialize k (s.update_settings scan data).1).state with
          _force_reinit := false }) ∧
    ((s.update_settings scan data).2 = false →
      s.update scan k data = outcome.ok (s.update_settings scan data).1 ∧
      (s.update scan k data).state._nvidia = s._nvidia ∧
      (s.update scan k data).state._last_engine = s._last_engine ∧
      (s.update scan k data).state.events = s.events) ∧
    (s.update scan k data).state._force_reinit = false ∧
    ((s.update scan k data).state.update_settings scan data2).2 = false ∧
    ((s.update scan k data).state.update scan k2 data2).state._nvidia
      = (s.update scan k data).state._nvidia := by
  obtain ⟨f1, _, _, _, f5, f6, f7⟩ := update_settings_flag scan s data
  obtain ⟨u1, u2, u3⟩ := update_force_reinit scan k s data
  have h2 : ((s.update scan k data).state.update_settings scan data2).2 = false := by
    obtain ⟨g1, _⟩ := update_settings_flag scan (s.update scan k data).state data2
    cases hb : ((s.update scan k data).state.update_settings scan data2).2 with
    | false => rfl
    | true =>
      rcases g1.mp hb with h | h | h
      · rw [u1] at h; exact absurd h (by simp)
      · rw [u2, hm] at h; exact absurd rfl h
      · rw [u3, he] at h; exact absurd rfl h
  refine ⟨f1, ?_, ?_, u1, h2, ?_⟩
  · intro h
    rw [update_unfold, if_pos h]
  · intro h
    have hn : ¬ (s.update_settings scan data).2 = true := by rw [h]; simp
    rw [update_unfold, if_neg hn]
    exact ⟨rfl, f5, f6, f7⟩
  · have hn : ¬ ((s.update scan k data).state.update_settings scan data2).2 = true := by
      rw [h2]; simp
    rw [update_unfold scan k2, if_neg hn]
    exact (update_settings_flag scan (s.update scan k data).state data2).2.2.2.2.1

/-- C14 (witness): the first update of a constructed state with the default settings, then
an update that changes only the padding texts. -/
theorem update_reinitializes_iff_witness :
    ((instance_without_tracker (1920, 1080) (0, 0) (0, 0) []).update_settings sscanf_lf_table
        get_defaults2).2 = false ∧
    ((((instance_without_tracker (1920, 1080) (0, 0) (0, 0) []).update sscanf_lf_table
        (sdk_accepting [] [] 0) get_defaults2).state).update_settings sscanf_lf_table
          { get_defaults2 with Layout_Padding_X := "50%", Layout_Padding_Y := "50" }).2 = false := by
  have h := update_reinitializes_iff sscanf_lf_table (sdk_accepting [] [] 0) (sdk_accepting [] [] 0)
    (instance_without_tracker (1920, 1080) (0, 0) (0, 0) []) get_defaults2
    { get_defaults2 with Layout_Padding_X := "50%", Layout_Padding_Y := "50" } rfl rfl
  refine ⟨?_, h.2.2.2.2.1⟩
  cases hb : ((instance_without_tracker (1920, 1080) (0, 0) (0, 0) []).update_settings
      sscanf_lf_table get_defaults2).2 with
  | false => rfl
  | true =>
    rcases h.1.mp hb with h1 | h1 | h1
    · exact absurd h1 (by simp [instance_without_tracker])
    · exact absurd h1 (by simp [instance_without_tracker, get_defaults2])
    · exact absurd h1 (by simp [instance_without_tracker, get_defaults2, engine.of_int64,
        engine.AUTOMATIC])

/-! ### Rendering -/

theorem video_render_skipped (h : host) (k : sdk) (s : autoframing_instance)
    (hs : s._capture_fresh = false) (hd : h.process_filter_begin = false) :
    s.video_render h k =
      outcome.ok { s with events :=
        s.events ++ [event.process_filter_begin false, event.skip_video_filter] } := by
  simp [autoframing_instance.video_render, hs, hd, autoframing_instance.emit]

/-- C15: with a stale capture and a host that denies the capture, `video_render` returns
after requesting pass-through; the only calls are the denied `process_filter_begin` and
`skip_video_filter` (no tracking, no draw), and no member of the filter changes:
`_capture_fresh` stays false. -/
theorem video_render_denied (h : host) (k : sdk) (s : autoframing_instance)
    (hs : s._capture_fresh = false) (hd : h.process_filter_begin = false) :
    s.video_render h k =
      outcome.ok { s with events :=
        s.events ++ [event.process_filter_begin false, event.skip_video_filter] } ∧
    (s.video_render h k).state._capture_fresh = false ∧
    event.detector_track ∉ (s.video_render h k).state.events.drop s.events.length ∧
    event.draw ∉ (s.video_render h k).state.events.drop s.events.length := by
  have e : s.video_render h k =
      outcome.ok { s with events :=
        s.events ++ [event.process_filter_begin false, event.skip_video_filter] } := by
    simp [autoframing_instance.video_render, hs, hd, autoframing_instance.emit]
  rw [e]
  refine ⟨rfl, hs, ?_, ?_⟩ <;> simp [outcome.ok]

/-- C15 (witness): a filter holding a tracker and held regions, with a stale capture. -/
theorem video_render_denied_witness :
    ((instance_with_tracker (1920, 1080) (192, 108) (0, 0) [⟨800, 400, 200, 300⟩]
        sample_detector).video_render ⟨false⟩ (sdk_accepting [] [] 0)).state =
      { instance_with_tracker (1920, 1080) (192, 108) (0, 0) [⟨800, 400, 200, 300⟩]
          sample_detector with
        events := [event.process_filter_begin false, event.skip_video_filter] } := by
  rw [(video_render_denied ⟨false⟩ (sdk_accepting [] [] 0)
    (instance_with_tracker (1920, 1080) (192, 108) (0, 0) [⟨800, 400, 200, 300⟩]
      sample_detector) rfl rfl).1]
  rfl

theorem adjust_uvs_quad (frame : rect) (size : Nat × Nat) (p0 p1 p2 p3 : ℚ × ℚ × ℚ)
    (u0 u1 u2 u3 : ℚ × ℚ) :
    adjust_uvs frame size [⟨p0, u0⟩, ⟨p1, u1⟩, ⟨p2, u2⟩, ⟨p3, u3⟩] =
      [⟨p0, (frame.x / (size.1 : ℚ), frame.y / (size.2 : ℚ))⟩,
       ⟨p1, ((frame.x + frame.w) / (size.1 : ℚ), frame.y / (size.2 : ℚ))⟩,
       ⟨p2, (frame.x / (size.1 : ℚ), (frame.y + frame.h) / (size.2 : ℚ))⟩,
       ⟨p3, ((frame.x + frame.w) / (size.1 : ℚ), (frame.y + frame.h) / (size.2 : ℚ))⟩] := by
  simp [adjust_uvs, set_uv]

theorem perform_vb (k : sdk) (s : autoframing_instance) :
    (s.perform k).state._vb = s._vb := by
  unfold autoframing_instance.perform
  cases hd : s._nvidia._detector with
  | none => simp [outcome.ok]
  | some d =>
    have ht : (s.nvidia_track k d).state._vb = s._vb := by
      unfold autoframing_instance.nvidia_track
      simp only [autoframing_instance.emit, autoframing_instance.set_detector]
      split
      · simp [outcome.throw]
      · split <;> simp [outcome.throw, outcome.ok]
    simp only
    cases (s.nvidia_track k d).thrown with
    | none => simpa [outcome.ok] using ht
    | some e => simpa [outcome.throw] using ht

theorem video_render_fresh (h : host) (k : sdk) (s : autoframing_instance)
    (hf : s._capture_fresh = true) :
    s.video_render h k = outcome.ok s.video_render_present := by
  simp [autoframing_instance.video_render, hf]

theorem video_render_granted (h : host) (k : sdk) (s : autoframing_instance)
    (hf : s._capture_fresh = false) (hg : h.process_filter_begin = true) :
    s.video_render h k =
      match (s.captured.perform k).thrown with
      | some e => outcome.throw (s.captured.perform k).state e
      | none =>
        outcome.ok ({ (s.captured.perform k).state with
          _capture_fresh := true } : autoframing_instance).video_render_present := by
  simp [autoframing_instance.video_render, hf, hg, autoframing_instance.captured,
    autoframing_instance.emit]

theorem present_uvs (s : autoframing_instance)
    (hvb : s._vb.map vertex.position = [(0, 0, 0), (1, 0, 0), (0, 1, 0), (1, 1, 0)]) :
    s.video_render_present._vb.map vertex.position = [(0, 0, 0), (1, 0, 0), (0, 1, 0), (1, 1, 0)] ∧
    s.video_render_present._vb.map vertex.uv = frame_uvs s._frame s._size ∧
    s.video_render_present._frame = s._frame ∧ s.video_render_present._size = s._size := by
  rcases hvl : s._vb with _ | ⟨v0, _ | ⟨v1, _ | ⟨v2, _ | ⟨v3, _ | ⟨v4, t⟩⟩⟩⟩⟩ <;>
    simp [hvl] at hvb
  obtain ⟨h0, h1, h2, h3⟩ := hvb
  obtain ⟨p0, u0⟩ := v0
  obtain ⟨p1, u1⟩ := v1
  obtain ⟨p2, u2⟩ := v2
  obtain ⟨p3, u3⟩ := v3
  simp only at h0 h1 h2 h3
  subst h0 h1 h2 h3
  simp [autoframing_instance.video_render_present, autoframing_instance.emit, hvl,
    adjust_uvs_quad, frame_uvs]

/-- C16: when `video_render` reaches its drawing part (fresh capture, or a granted capture
followed by a `perform` that returns), the four vertices keep the corner positions
top-left, top-right, bottom-left, bottom-right and carry the UV pairs `(x/W, y/H)`,
`((x+w)/W, y/H)`, `(x/W, (y+h)/H)`, `((x+w)/W, (y+h)/H)` of the stored frame; for the frame
`(0, 0, W, H)` these are the corners of the unit square. -/
theorem video_render_uvs (h : host) (k : sdk) (s : autoframing_instance)
    (hW : 0 < s._size.1) (hH : 0 < s._size.2)
    (hvb : s._vb.map vertex.position = [(0, 0, 0), (1, 0, 0), (0, 1, 0), (1, 1, 0)])
    (hrun : s._capture_fresh = true ∨
      (s._capture_fresh = false ∧ h.process_filter_begin = true ∧
        (s.captured.perform k).thrown = none)) :
    (s.video_render h k).thrown = none ∧
    (s.video_render h k).state._vb.map vertex.position
      = [(0, 0, 0), (1, 0, 0), (0, 1, 0), (1, 1, 0)] ∧
    (s.video_render h k).state._vb.map vertex.uv
      = frame_uvs (s.video_render h k).state._frame s._size ∧
    frame_uvs ⟨0, 0, (s._size.1 : ℚ), (s._size.2 : ℚ)⟩ s._size = [(0, 0), (1, 0), (0, 1), (1, 1)] := by
  have hW' : (s._size.1 : ℚ) ≠ 0 := by
    have : (0 : ℚ) < (s._size.1 : ℚ) := by exact_mod_cast hW
    exact ne_of_gt this
  have hH' : (s._size.2 : ℚ) ≠ 0 := by
    have : (0 : ℚ) < (s._size.2 : ℚ) := by exact_mod_cast hH
    exact ne_of_gt this
  have hunit : frame_uvs ⟨0, 0, (s._size.1 : ℚ), (s._size.2 : ℚ)⟩ s._size
      = [(0, 0), (1, 0), (0, 1), (1, 1)] := by
    simp [frame_uvs, hW', hH']
  rcases hrun with hf | ⟨hf, hg, hp⟩
  · rw [video_render_fresh h k s hf]
    obtain ⟨q1, q2, q3, q4⟩ := present_uvs s hvb
    refine ⟨rfl, q1, ?_, hunit⟩
    show s.video_render_present._vb.map vertex.uv = frame_uvs s.video_render_present._frame s._size
    rw [q2, q3]
  · rw [video_render_granted h k s hf hg, hp]
    simp only
    have hs : (s.captured.perform k).state._size = s._size := by
      cases hd : s.captured._nvidia._detector with
      | none => rw [perform_without_detector k _ hd]; rfl
      | some d =>
        have := (perform_stores_frame k s.captured hp).2
        rw [this]; rfl
    have hv : (s.captured.perform k).state._vb = s._vb := by
      rw [perform_vb]; rfl
    obtain ⟨q1, q2, q3, q4⟩ := present_uvs
      ({ (s.captured.perform k).state with _capture_fresh := true } : autoframing_instance)
      (by show (s.captured.perform k).state._vb.map vertex.position = _; rw [hv]; exact hvb)
    refine ⟨rfl, q1, ?_, hunit⟩
    show (autoframing_instance.video_render_present _)._vb.map vertex.uv
      = frame_uvs (autoframing_instance.video_render_present _)._frame s._size
    rw [q2, q3]
    show frame_uvs _ (s.captured.perform k).state._size = _
    rw [hs]

/-- C16 (witness): a 1920x1080 filter with a fresh capture and the stored frame
`(480, 270, 960, 540)`: the UVs are `(1/4, 1/4)`, `(3/4, 1/4)`, `(1/4, 3/4)`, `(3/4, 3/4)`. -/
theorem video_render_uvs_witness :
    (({ instance_without_tracker (1920, 1080) (0, 0) (0, 0) [] with
        _capture_fresh := true, _frame := ⟨480, 270, 960, 540⟩ } :
      autoframing_instance).video_render ⟨true⟩ (sdk_accepting [] [] 0)).state._vb.map vertex.uv
      = [(1 / 4, 1 / 4), (3 / 4, 1 / 4), (1 / 4, 3 / 4), (3 / 4, 3 / 4)] := by
  have h := video_render_uvs ⟨true⟩ (sdk_accepting [] [] 0)
    ({ instance_without_tracker (1920, 1080) (0, 0) (0, 0) [] with
        _capture_fresh := true, _frame := ⟨480, 270, 960, 540⟩ } : autoframing_instance)
    (by decide) (by decide) rfl (Or.inl rfl)
  rw [h.2.2.1, video_render_fresh _ _ _ rfl]
  norm_num [frame_uvs, outcome.ok, autoframing_instance.video_render_present,
    autoframing_instance.emit, instance_without_tracker]

/-! ### Properties of the framing steps -/

/-- C17: without a tracker `perform` returns, writes only `_frame`, as a function of the
region list, the input size, the padding and the offset, and running it again on the
result changes nothing. -/
theorem perform_idempotent (k k2 : sdk) (s : autoframing_instance)
    (hd : s._nvidia._detector = none) :
    (s.perform k).thrown = none ∧
    (s.perform k).state =
      { s with _frame := perform_frame s._size s._padding s._offset s._regions } ∧
    (s.perform k).state.perform k2 = s.perform k := by
  rw [perform_without_detector k s hd]
  refine ⟨rfl, rfl, ?_⟩
  rw [perform_without_detector k2 _ (by simpa [outcome.ok] using hd)]
  rfl

/-- C17 (witness): a filter without tracker holding one region. -/
theorem perform_idempotent_witness :
    (((instance_without_tracker (1920, 1080) (192, 108) (0, 0)
        [⟨800, 400, 200, 300⟩]).perform (sdk_accepting [] [] 0)).state.perform
          (sdk_accepting [] [] 0)) =
      (instance_without_tracker (1920, 1080) (192, 108) (0, 0)
        [⟨800, 400, 200, 300⟩]).perform (sdk_accepting [] [] 0) :=
  (perform_idempotent (sdk_accepting [] [] 0) (sdk_accepting [] [] 0)
    (instance_without_tracker (1920, 1080) (192, 108) (0, 0) [⟨800, 400, 200, 300⟩]) rfl).2.2

theorem fbound.lower_cases (b : fbound) (v : ℚ) :
    (if b.gt v then fbound.fin v else b) = b ∨ (if b.gt v then fbound.fin v else b) = fbound.fin v := by
  by_cases h : b.gt v = true
  · right; simp [h]
  · left; simp [h]

theorem perform_boundary_foldl_attained (size : Nat × Nat) :
    ∀ (rs : List rect) (b : boundary),
      ((rs.foldl (perform_boundary_step size) b).left = b.left ∨
        ∃ u ∈ rs, (rs.foldl (perform_boundary_step size) b).left = fbound.fin u.x) ∧
      ((rs.foldl (perform_boundary_step size) b).top = b.top ∨
        ∃ u ∈ rs, (rs.foldl (perform_boundary_step size) b).top = fbound.fin u.y) ∧
      ((rs.foldl (perform_boundary_step size) b).right = b.right ∨
        ∃ u ∈ rs, (rs.foldl (perform_boundary_step size) b).right
          = fbound.fin ((size.1 : ℚ) - (u.x + u.w))) ∧
      ((rs.foldl (perform_boundary_step size) b).bottom = b.bottom ∨
        ∃ u ∈ rs, (rs.foldl (perform_boundary_step size) b).bottom
          = fbound.fin ((size.2 : ℚ) - (u.y + u.h))) := by
  intro rs
  induction rs with
  | nil => intro b; exact ⟨Or.inl rfl, Or.inl rfl, Or.inl rfl, Or.inl rfl⟩
  | cons r rs ih =>
    intro b
    rw [List.foldl_cons]
    obtain ⟨i1, i2, i3, i4⟩ := ih (perform_boundary_step size b r)
    have lift : ∀ (P : rect → Prop), (∃ u ∈ rs, P u) → ∃ u ∈ r :: rs, P u :=
      fun P ⟨u, hu, hp⟩ => ⟨u, List.mem_cons_of_mem r hu, hp⟩
    refine ⟨?_, ?_, ?_, ?_⟩
    · rcases i1 with h | h
      · rcases fbound.lower_cases b.left r.left with c | c
        · left; rw [h]; exact c
        · right; exact ⟨r, List.mem_cons_self r rs, by rw [h]; exact c⟩
      · right; exact lift _ h
    · rcases i2 with h | h
      · rcases fbound.lower_cases b.top r.top with c | c
        · left; rw [h]; exact c
        · right; exact ⟨r, List.mem_cons_self r rs, by rw [h]; exact c⟩
      · right; exact lift _ h
    · rcases i3 with h | h
      · rcases fbound.lower_cases b.right ((size.1 : ℚ) - (r.left + r.w)) with c | c
        · left; rw [h]; exact c
        · right; exact ⟨r, List.mem_cons_self r rs, by rw [h]; exact c⟩
      · right; exact lift _ h
    · rcases i4 with h | h
      · rcases fbound.lower_cases b.bottom ((size.2 : ℚ) - (r.top + r.h)) with c | c
        · left; rw [h]; exact c
        · right; exact ⟨r, List.mem_cons_self r rs, by rw [h]; exact c⟩
      · right; exact lift _ h

/-- The boundary after the loop over a non-empty list: finite, a lower bound, attained. -/
theorem perform_boundary_attains (size : Nat × Nat) (regions : List rect)
    (hne : regions ≠ []) :
    ∃ l t r b : ℚ,
      perform_boundary size regions =
        { left := fbound.fin l, top := fbound.fin t, right := fbound.fin r,
          bottom := fbound.fin b } ∧
      (∀ u ∈ regions, l ≤ u.x ∧ t ≤ u.y ∧ r ≤ (size.1 : ℚ) - (u.x + u.w) ∧
        b ≤ (size.2 : ℚ) - (u.y + u.h)) ∧
      (∃ u ∈ regions, l = u.x) ∧ (∃ u ∈ regions, t = u.y) ∧
      (∃ u ∈ regions, r = (size.1 : ℚ) - (u.x + u.w)) ∧
      (∃ u ∈ regions, b = (size.2 : ℚ) - (u.y + u.h)) ∧
      (∀ u ∈ regions, rect.contains (perform_convert size (perform_boundary size regions)) u) ∧
      (∃ u ∈ regions, (perform_convert size (perform_boundary size regions)).x = u.x) ∧
      (∃ u ∈ regions, (perform_convert size (perform_boundary size regions)).y = u.y) ∧
      (∃ u ∈ regions, (perform_convert size (perform_boundary size regions)).x
        + (perform_convert size (perform_boundary size regions)).w = u.x + u.w) ∧
      (∃ u ∈ regions, (perform_convert size (perform_boundary size regions)).y
        + (perform_convert size (perform_boundary size regions)).h = u.y + u.h) := by
  obtain ⟨r0, hr0⟩ := List.exists_mem_of_ne_nil regions hne
  obtain ⟨c1, c2, c3, c4⟩ := perform_boundary_covers size regions r0 hr0
  obtain ⟨l, hl, _⟩ := (fbound.le_iff _ _).mp c1
  obtain ⟨t, ht, _⟩ := (fbound.le_iff _ _).mp c2
  obtain ⟨r, hr, _⟩ := (fbound.le_iff _ _).mp c3
  obtain ⟨b, hb, _⟩ := (fbound.le_iff _ _).mp c4
  have hbd : perform_boundary size regions =
      { left := fbound.fin l, top := fbound.fin t, right := fbound.fin r,
        bottom := fbound.fin b } := by
    rw [← hl, ← ht, ← hr, ← hb]
  have hlow : ∀ u ∈ regions, l ≤ u.x ∧ t ≤ u.y ∧ r ≤ (size.1 : ℚ) - (u.x + u.w) ∧
      b ≤ (size.2 : ℚ) - (u.y + u.h) := by
    intro u hu
    obtain ⟨d1, d2, d3, d4⟩ := perform_boundary_covers size regions u hu
    rw [hl] at d1; rw [ht] at d2; rw [hr] at d3; rw [hb] at d4
    exact ⟨d1, d2, d3, d4⟩
  obtain ⟨a1, a2, a3, a4⟩ := perform_boundary_foldl_attained size regions
    { left := fbound.inf, top := fbound.inf, right := fbound.inf, bottom := fbound.inf }
  have hal : ∃ u ∈ regions, l = u.x := by
    rcases a1 with h | ⟨u, hu, h⟩
    · have : (perform_boundary size regions).left = fbound.inf := h
      rw [hl] at this; exact fbound.noConfusion this
    · have h' : (perform_boundary size regions).left = fbound.fin u.x := h
      rw [hl] at h'; exact ⟨u, hu, fbound.fin.inj h'⟩
  have hat : ∃ u ∈ regions, t = u.y := by
    rcases a2 with h | ⟨u, hu, h⟩
    · have : (perform_boundary size regions).top = fbound.inf := h
      rw [ht] at this; exact fbound.noConfusion this
    · have h' : (perform_boundary size regions).top = fbound.fin u.y := h
      rw [ht] at h'; exact ⟨u, hu, fbound.fin.inj h'⟩
  have har : ∃ u ∈ regions, r = (size.1 : ℚ) - (u.x + u.w) := by
    rcases a3 with h | ⟨u, hu, h⟩
    · have : (perform_boundary size regions).right = fbound.inf := h
      rw [hr] at this; exact fbound.noConfusion this
    · have h' : (perform_boundary size regions).right = fbound.fin _ := h
      rw [hr] at h'; exact ⟨u, hu, fbound.fin.inj h'⟩
  have hab : ∃ u ∈ regions, b = (size.2 : ℚ) - (u.y + u.h) := by
    rcases a4 with h | ⟨u, hu, h⟩
    · have : (perform_boundary size regions).bottom = fbound.inf := h
      rw [hb] at this; exact fbound.noConfusion this
    · have h' : (perform_boundary size regions).bottom = fbound.fin _ := h
      rw [hb] at h'; exact ⟨u, hu, fbound.fin.inj h'⟩
  refine ⟨l, t, r, b, hbd, hlow, hal, hat, har, hab, ?_, ?_, ?_, ?_, ?_⟩
  · intro u hu
    obtain ⟨d1, d2, d3, d4⟩ := hlow u hu
    rw [hbd]
    simp only [rect.contains, perform_convert, fbound.val]
    refine ⟨d1, d2, ?_, ?_⟩ <;> linarith
  · obtain ⟨u, hu, h⟩ := hal
    exact ⟨u, hu, by rw [hbd]; exact h⟩
  · obtain ⟨u, hu, h⟩ := hat
    exact ⟨u, hu, by rw [hbd]; exact h⟩
  · obtain ⟨u, hu, h⟩ := har
    refine ⟨u, hu, ?_⟩
    rw [hbd]
    simp only [perform_convert, fbound.val]
    linarith
  · obtain ⟨u, hu, h⟩ := hab
    refine ⟨u, hu, ?_⟩
    rw [hbd]
    simp only [perform_convert, fbound.val]
    linarith

/-- C18: for a non-empty region list the boundary after the loop is finite; its left and
top are the least `x` and `y` of the regions and its right and bottom margins the least
`W - (x + w)` and `H - (y + h)` (each a lower bound that some region attains); converted to
a frame it contains every region and each of its four edges is an edge of some region. -/
theorem perform_boundary_minimal (size : Nat × Nat) (regions : List rect)
    (hne : regions ≠ []) :
    ∃ l t r b : ℚ,
      perform_boundary size regions =
        { left := fbound.fin l, top := fbound.fin t, right := fbound.fin r,
          bottom := fbound.fin b } ∧
      (∀ u ∈ regions, l ≤ u.x ∧ t ≤ u.y ∧ r ≤ (size.1 : ℚ) - (u.x + u.w) ∧
        b ≤ (size.2 : ℚ) - (u.y + u.h)) ∧
      (∃ u ∈ regions, l = u.x) ∧ (∃ u ∈ regions, t = u.y) ∧
      (∃ u ∈ regions, r = (size.1 : ℚ) - (u.x + u.w)) ∧
      (∃ u ∈ regions, b = (size.2 : ℚ) - (u.y + u.h)) ∧
      (∀ u ∈ regions, rect.contains (perform_convert size (perform_boundary size regions)) u) ∧
      (∃ u ∈ regions, (perform_convert size (perform_boundary size regions)).x = u.x) ∧
      (∃ u ∈ regions, (perform_convert size (perform_boundary size regions)).y = u.y) ∧
      (∃ u ∈ regions, (perform_convert size (perform_boundary size regions)).x
        + (perform_convert size (perform_boundary size regions)).w = u.x + u.w) ∧
      (∃ u ∈ regions, (perform_convert size (perform_boundary size regions)).y
        + (perform_convert size (perform_boundary size regions)).h = u.y + u.h) :=
  perform_boundary_attains size regions hne

/-- C18 (witness): two regions in a 100x100 input. -/
theorem perform_boundary_minimal_witness :
    ([⟨10, 20, 30, 40⟩, ⟨50, 5, 10, 10⟩] : List rect) ≠ [] ∧
    ∃ l t r b : ℚ,
      perform_boundary (100, 100) [⟨10, 20, 30, 40⟩, ⟨50, 5, 10, 10⟩] =
        { left := fbound.fin l, top := fbound.fin t, right := fbound.fin r,
          bottom := fbound.fin b } ∧
      (∃ u ∈ ([⟨10, 20, 30, 40⟩, ⟨50, 5, 10, 10⟩] : List rect), l = u.x) ∧
      (∃ u ∈ ([⟨10, 20, 30, 40⟩, ⟨50, 5, 10, 10⟩] : List rect), t = u.y) := by
  refine ⟨by simp, ?_⟩
  obtain ⟨l, t, r, b, h1, _, h3, h4, _⟩ :=
    perform_boundary_minimal (100, 100) [⟨10, 20, 30, 40⟩, ⟨50, 5, 10, 10⟩] (by simp)
  exact ⟨l, t, r, b, h1, h3, h4⟩

/-- C19: the aspect lock keeps the horizontal centre, `y` and the height, and sets the
width to `h * W / H`. -/
theorem perform_aspect_centre (size : Nat × Nat) (frame : rect) (_hH : 0 < size.2) :
    (perform_aspect size frame).x + (perform_aspect size frame).w / 2
      = frame.x + frame.w / 2 ∧
    (perform_aspect size frame).y = frame.y ∧
    (perform_aspect size frame).h = frame.h ∧
    (perform_aspect size frame).w = frame.h * (size.1 : ℚ) / (size.2 : ℚ) := by
  simp only [perform_aspect]
  refine ⟨by ring, trivial, trivial, by ring⟩

/-- C19 (witness): the frame `(608, 274, 584, 516)` at 1920x1080. -/
theorem perform_aspect_centre_witness :
    (perform_aspect (1920, 1080) ⟨608, 274, 584, 516⟩).x
      + (perform_aspect (1920, 1080) ⟨608, 274, 584, 516⟩).w / 2 = 608 + 584 / 2 ∧
    (perform_aspect (1920, 1080) ⟨608, 274, 584, 516⟩).h = 516 :=
  ⟨(perform_aspect_centre (1920, 1080) ⟨608, 274, 584, 516⟩ (by decide)).1,
   (perform_aspect_centre (1920, 1080) ⟨608, 274, 584, 516⟩ (by decide)).2.2.1⟩

/-- C20: for a non-empty region list the output frame with offset `(ox, oy)` is the output
frame with zero offset moved by `+ox` in `x` and `-ox` in `y`, with the same width and
height; the y offset is not read. -/
theorem perform_frame_offset (size : Nat × Nat) (padding : ℚ × ℚ) (ox oy oy2 : ℚ)
    (regions : List rect) (hne : regions ≠ []) :
    perform_frame size padding (ox, oy) regions =
      { x := (perform_frame size padding (0, 0) regions).x + ox
        y := (perform_frame size padding (0, 0) regions).y - ox
        w := (perform_frame size padding (0, 0) regions).w
        h := (perform_frame size padding (0, 0) regions).h } ∧
    perform_frame size padding (ox, oy) regions = perform_frame size padding (ox, oy2) regions := by
  cases regions with
  | nil => exact absurd rfl hne
  | cons r rs =>
    simp only [perform_frame_cons]
    generalize perform_preframe size padding (r :: rs) = pre
    simp only [perform_aspect, perform_offset, perform_bias]
    refine ⟨?_, trivial⟩
    congr 1 <;> ring

/-- C20 (witness): one region at 1920x1080 with offsets `(10, 0)` and `(10, -54)`. -/
theorem perform_frame_offset_witness :
    perform_frame (1920, 1080) (192, 108) (10, 0) [⟨800, 400, 200, 300⟩] =
      perform_frame (1920, 1080) (192, 108) (10, -54) [⟨800, 400, 200, 300⟩] :=
  (perform_frame_offset (1920, 1080) (192, 108) 10 0 (-54) [⟨800, 400, 200, 300⟩]
    (by simp)).2

/-! ### Vertical bias and tick -/

/-- C21: for a non-empty region list and zero offset the output frame keeps the height of
the padded bounding box and its `y` is the box top, `min region.y - pad_y`, minus one
thirtieth of that height. -/
theorem perform_frame_bias (size : Nat × Nat) (padding : ℚ × ℚ) (regions : List rect)
    (hne : regions ≠ []) :
    ∃ t : ℚ, (∀ u ∈ regions, t ≤ u.y) ∧ (∃ u ∈ regions, t = u.y) ∧
      (perform_preframe size padding regions).y = t - padding.2 ∧
      (perform_frame size padding (0, 0) regions).h = (perform_preframe size padding regions).h ∧
      (perform_frame size padding (0, 0) regions).y =
        (t - padding.2) - (perform_frame size padding (0, 0) regions).h / 30 := by
  obtain ⟨l, t, r, b, hb, hlow, _, hat, _⟩ := perform_boundary_attains size regions hne
  have hpre : (perform_preframe size padding regions).y = t - padding.2 := by
    simp [perform_preframe, perform_convert, perform_padding, hb, fbound.sub, fbound.val]
  refine ⟨t, fun u hu => (hlow u hu).2.1, hat, hpre, ?_, ?_⟩
  · cases regions with
    | nil => exact absurd rfl hne
    | cons r0 rs =>
      rw [perform_frame_cons]
      simp [perform_aspect, perform_offset, perform_bias]
  · cases regions with
    | nil => exact absurd rfl hne
    | cons r0 rs =>
      rw [perform_frame_cons, ← hpre]
      simp only [perform_aspect, perform_offset, perform_bias]
      ring

/-- C21 (witness): one region `(800, 400, 200, 300)` at 1920x1080 with padding
`(192, 108)`: the box is `(608, 292, 584, 516)` and the frame starts at `292 - 516 / 30`. -/
theorem perform_frame_bias_witness :
    (perform_frame (1920, 1080) (192, 108) (0, 0) [⟨800, 400, 200, 300⟩]).y = 292 - 516 / 30 ∧
    (perform_frame (1920, 1080) (192, 108) (0, 0) [⟨800, 400, 200, 300⟩]).h = 516 := by
  obtain ⟨t, h1, ⟨u, hu, h2⟩, h3, h4, h5⟩ :=
    perform_frame_bias (1920, 1080) (192, 108) [⟨800, 400, 200, 300⟩] (by simp)
  have hu' : u = ⟨800, 400, 200, 300⟩ := List.mem_singleton.mp hu
  have ht : t = 400 := by rw [h2, hu']
  have hp : (perform_preframe (1920, 1080) (192, 108) [⟨800, 400, 200, 300⟩]).h = 516 := by
    norm_num [perform_preframe, perform_boundary, perform_boundary_step, fbound.gt,
      perform_padding, fbound.sub, perform_convert, fbound.val, rect.left, rect.top]
  rw [h5, h4, hp, ht]
  norm_num

/-- C22: `video_tick` stores the size of the attached source, or `(1, 1)` without one,
clears `_capture_fresh`, and changes no other member; a padding resolved from a percentage
keeps its pixel value when the size changes. -/
theorem video_tick_effect (s : autoframing_instance) (target : Option (Nat × Nat)) :
    s.video_tick target =
      { s with _size := (match target with
                         | some src => (src.1, src.2)
                         | none => (1, 1)),
               _capture_fresh := false } ∧
    (s.video_tick target)._padding = s._padding ∧
    (s.video_tick target)._offset = s._offset ∧
    (s.video_tick target)._frame = s._frame ∧
    (s.video_tick target)._regions = s._regions ∧
    (s.video_tick target)._nvidia = s._nvidia ∧
    (s.video_tick target)._last_engine = s._last_engine ∧
    (((instance_without_tracker (200, 100) (0, 0) (0, 0) []).update sscanf_lf_table
        (sdk_accepting [] [] 0) ⟨0, "50%", "50%", "50", "50", 0⟩).state.video_tick
          (some (400, 300)))._padding = (100, 50) := by
  refine ⟨?_, ?_, ?_, ?_, ?_, ?_, ?_, ?_⟩
  · cases target <;> rfl
  · cases target <;> rfl
  · cases target <;> rfl
  · cases target <;> rfl
  · cases target <;> rfl
  · cases target <;> rfl
  · cases target <;> rfl
  · have h := (update_layout sscanf_lf_table (sdk_accepting [] [] 0)
      (instance_without_tracker (200, 100) (0, 0) (0, 0) [])
      ⟨0, "50%", "50%", "50", "50", 0⟩).2.2.1
    have e : ∀ t : autoframing_instance, (t.video_tick (some (400, 300)))._padding = t._padding :=
      fun _ => rfl
    rw [e, h, parse_text_as_size_percent sscanf_lf_table "50%" 50 rfl (by decide)]
    norm_num [resolve_size, instance_without_tracker]

/-! ### Release order on re-initialisation, renders between ticks -/

/-- C23 (code evaluation): a filter holding a tracker, re-initialised with the engine
unchanged (as after a change of the group mode) against an SDK that accepts every call:
`nvidia_destroy` is not run, the new tracker is constructed and the assignment in
`nvidia_create` releases the old one; no synchronisation is recorded before the release. -/
theorem reinitialize_releases_unsynchronized :
    (instance_with_tracker (1920, 1080) (0, 0) (0, 0) [] sample_detector)._last_engine =
      (instance_with_tracker (1920, 1080) (0, 0) (0, 0) [] sample_detector)._engine ∧
    ( autoframing_instance.reinitialize (sdk_accepting [] [] 0)
        (instance_with_tracker (1920, 1080) (0, 0) (0, 0) [] sample_detector)).state.events =
      [event.cuda_context_enter, event.detector_create, event.detector_release] ∧
    event.cuda_context_synchronize ∉
      ( autoframing_instance.reinitialize (sdk_accepting [] [] 0)
        (instance_with_tracker (1920, 1080) (0, 0) (0, 0) [] sample_detector)).state.events ∧
    event.cuda_stream_synchronize ∉
      ( autoframing_instance.reinitialize (sdk_accepting [] [] 0)
        (instance_with_tracker (1920, 1080) (0, 0) (0, 0) [] sample_detector)).state.events := by
  have he : ( autoframing_instance.reinitialize (sdk_accepting [] [] 0)
      (instance_with_tracker (1920, 1080) (0, 0) (0, 0) [] sample_detector)).state.events =
      [event.cuda_context_enter, event.detector_create, event.detector_release] := by
    simp [autoframing_instance.reinitialize, autoframing_instance.reinitialize_loop,
      autoframing_instance.nvidia_create, instance_with_tracker, sample_detector,
      facedetection.ctor, facedetection.set_limit, facedetection.enable_temporal_tracking,
      facedetection.load, feature.set_Temporal, sdk_accepting, result.SUCCESS, outcome.ok,
      outcome.throw, autoframing_instance.emit, autoframing_instance.set_detector,
      engine.AUTOMATIC, engine.NVIDIA, ST_MAXIMUM_REGIONS]
  refine ⟨rfl, he, ?_, ?_⟩ <;> rw [he] <;> decide

theorem present_frame (s : autoframing_instance) :
    s.video_render_present._frame = s._frame ∧ s.video_render_present._regions = s._regions ∧
    s.video_render_present._capture_fresh = s._capture_fresh ∧
    s.video_render_present._nvidia = s._nvidia ∧
    s.video_render_present._capture = s._capture ∧
    s.video_render_present.events = s.events ++ [event.draw] :=
  ⟨rfl, rfl, rfl, rfl, rfl, rfl⟩

theorem renders_fresh (l : List (host × sdk)) :
    ∀ (s : autoframing_instance), s._capture_fresh = true →
      (renders l s)._capture_fresh = true ∧ (renders l s)._frame = s._frame ∧
      (renders l s)._regions = s._regions ∧ (renders l s)._nvidia = s._nvidia ∧
      (renders l s)._capture = s._capture ∧
      (renders l s).events = s.events ++ List.replicate l.length event.draw := by
  induction l with
  | nil => intro s hf; simp [renders, hf]
  | cons hk l ih =>
    intro s hf
    have e : renders (hk :: l) s = renders l s.video_render_present := by
      simp [renders, video_render_fresh hk.1 hk.2 s hf, outcome.ok]
    obtain ⟨p1, p2, p3, p4, p5, p6⟩ := present_frame s
    obtain ⟨i1, i2, i3, i4, i5, i6⟩ := ih s.video_render_present (p3.trans hf)
    rw [e]
    refine ⟨i1, i2.trans p1, i3.trans p2, i4.trans p4, i5.trans p5, ?_⟩
    rw [i6, p6]
    simp [List.replicate_succ]

theorem perform_throw_frame (k : sdk) (s : autoframing_instance) (e : exception)
    (h : (s.perform k).thrown = some e) :
    (s.perform k).state._frame = s._frame ∧
    (s.perform k).state._capture_fresh = s._capture_fresh := by
  unfold autoframing_instance.perform at h ⊢
  cases hd : s._nvidia._detector with
  | none => simp [hd, outcome.ok] at h
  | some d =>
    have ht : (s.nvidia_track k d).state._frame = s._frame ∧
        (s.nvidia_track k d).state._capture_fresh = s._capture_fresh := by
      unfold autoframing_instance.nvidia_track
      simp only [autoframing_instance.emit, autoframing_instance.set_detector]
      split
      · simp [outcome.throw]
      · split <;> simp [outcome.throw, outcome.ok]
    simp only [hd] at h ⊢
    cases hth : (s.nvidia_track k d).thrown with
    | none => simp [hth, outcome.ok] at h
    | some e2 => simpa [hth, outcome.throw] using ht

theorem perform_events (k : sdk) (s : autoframing_instance) :
    (s.perform k).state.events =
      s.events ++ (if s._nvidia._detector.isSome then
        [event.cuda_context_enter, event.detector_track] else []) := by
  unfold autoframing_instance.perform
  cases hd : s._nvidia._detector with
  | none => simp [outcome.ok]
  | some d =>
    have ht : (s.nvidia_track k d).state.events =
        s.events ++ [event.cuda_context_enter, event.detector_track] := by
      unfold autoframing_instance.nvidia_track
      simp only [autoframing_instance.emit, autoframing_instance.set_detector]
      split
      · simp [outcome.throw]
      · split <;> simp [outcome.throw, outcome.ok]
    simp only
    cases (s.nvidia_track k d).thrown with
    | none => simpa [outcome.ok] using ht
    | some e => simpa [outcome.throw] using ht

theorem video_render_frame_or_fresh (h : host) (k : sdk) (s : autoframing_instance) :
    (s.video_render h k).state._frame = s._frame ∨
      (s.video_render h k).state._capture_fresh = true := by
  cases hf : s._capture_fresh with
  | true =>
    left
    rw [video_render_fresh h k s hf]
    rfl
  | false =>
    cases hg : h.process_filter_begin with
    | false =>
      left
      rw [video_render_skipped h k s hf hg]
      rfl
    | true =>
      cases hp : (s.captured.perform k).thrown with
      | none =>
        right
        rw [video_render_granted h k s hf hg, hp]
        rfl
      | some e =>
        left
        rw [video_render_granted h k s hf hg, hp]
        exact (perform_throw_frame k s.captured e hp).1

theorem renders_cons (hk : host × sdk) (l : List (host × sdk)) (s : autoframing_instance) :
    renders (hk :: l) s = renders l (s.video_render hk.1 hk.2).state := rfl

/-- In a run of renders without tick the stored frame changes at most once: it keeps its
value for the first `n` renders and the value it has after render `n + 1` from then on. -/
theorem renders_frame_changes_once (l : List (host × sdk)) :
    ∀ (s : autoframing_instance), ∃ n : Nat,
      (∀ m, m ≤ n → (renders (l.take m) s)._frame = s._frame) ∧
      (∀ m, n < m → (renders (l.take m) s)._frame = (renders (l.take (n + 1)) s)._frame) := by
  induction l with
  | nil =>
    intro s
    exact ⟨0, fun m _ => by simp [renders], fun m _ => by simp [renders]⟩
  | cons hk l ih =>
    intro s
    rcases video_render_frame_or_fresh hk.1 hk.2 s with hfr | hfresh
    · obtain ⟨n, i1, i2⟩ := ih (s.video_render hk.1 hk.2).state
      refine ⟨n + 1, ?_, ?_⟩
      · intro m hm
        cases m with
        | zero => simp [renders]
        | succ m =>
          rw [List.take_succ_cons, renders_cons, i1 m (by omega), hfr]
      · intro m hm
        cases m with
        | zero => omega
        | succ m =>
          rw [List.take_succ_cons, List.take_succ_cons, renders_cons, renders_cons]
          exact i2 m (by omega)
    · refine ⟨0, ?_, ?_⟩
      · intro m hm
        have : m = 0 := by omega
        subst this
        simp [renders]
      · intro m hm
        cases m with
        | zero => omega
        | succ m =>
          rw [List.take_succ_cons, List.take_succ_cons, renders_cons, renders_cons]
          rw [(renders_fresh _ _ hfresh).2.1, (renders_fresh _ _ hfresh).2.1]

/-- C24: a render on a fresh capture only adjusts the UVs and draws; a render on a stale
capture that is granted and whose `perform` returns captures, tracks and aggregates once
and leaves `_capture_fresh` true; every render either leaves `_frame` as it was or ends
with `_capture_fresh` true, and from a fresh capture on no run of renders changes `_frame`,
`_regions` or the tracker or records anything but draws; so in any run of renders
`_frame` changes at most once. -/
theorem video_render_tracks_once (h : host) (k : sdk) (s : autoframing_instance)
    (l : List (host × sdk)) :
    (s._capture_fresh = true →
      s.video_render h k = outcome.ok s.video_render_present ∧
      (s.video_render h k).state.events = s.events ++ [event.draw] ∧
      (s.video_render h k).state._frame = s._frame ∧
      (s.video_render h k).state._regions = s._regions ∧
      (s.video_render h k).state._capture = s._capture) ∧
    (s._capture_fresh = false → h.process_filter_begin = true →
        (s.captured.perform k).thrown = none →
      (s.video_render h k).thrown = none ∧
      (s.video_render h k).state._capture_fresh = true ∧
      (s.video_render h k).state._frame = (s.captured.perform k).state._frame ∧
      (s.video_render h k).state.events =
        s.events ++ [event.process_filter_begin true, event.process_filter_end]
          ++ (if s._nvidia._detector.isSome then
                [event.cuda_context_enter, event.detector_track] else [])
          ++ [event.draw]) ∧
    ((s.video_render h k).state._frame = s._frame ∨
      (s.video_render h k).state._capture_fresh = true) ∧
    (s._capture_fresh = true →
      (renders l s)._capture_fresh = true ∧ (renders l s)._frame = s._frame ∧
      (renders l s)._regions = s._regions ∧ (renders l s)._nvidia = s._nvidia ∧
      (renders l s).events = s.events ++ List.replicate l.length event.draw) ∧
    (∃ n : Nat,
      (∀ m, m ≤ n → (renders (l.take m) s)._frame = s._frame) ∧
      (∀ m, n < m → (renders (l.take m) s)._frame = (renders (l.take (n + 1)) s)._frame)) := by
  have hgr : s._capture_fresh = false → h.process_filter_begin = true →
      (s.captured.perform k).thrown = none →
      s.video_render h k = outcome.ok
        ({ (s.captured.perform k).state with
          _capture_fresh := true } : autoframing_instance).video_render_present := by
    intro hf hg hp
    rw [video_render_granted h k s hf hg, hp]
  refine ⟨?_, ?_, video_render_frame_or_fresh h k s, ?_, renders_frame_changes_once l s⟩
  · intro hf
    rw [video_render_fresh h k s hf]
    exact ⟨rfl, rfl, rfl, rfl, rfl⟩
  · intro hf hg hp
    rw [hgr hf hg hp]
    refine ⟨rfl, rfl, rfl, ?_⟩
    show (s.captured.perform k).state.events ++ [event.draw] = _
    rw [perform_events]
    simp [autoframing_instance.captured, autoframing_instance.emit]
  · intro hf
    obtain ⟨i1, i2, i3, i4, _, i6⟩ := renders_fresh l s hf
    exact ⟨i1, i2, i3, i4, i6⟩

/-- C24 (witness): a tick, then three renders of a filter holding a tracker, the first
granted with a tracking run that finds nothing: one tracking call and three draws. -/
theorem video_render_tracks_once_witness :
    (renders [(⟨true⟩, sdk_accepting [] [] 0), (⟨true⟩, sdk_accepting [] [] 0)]
      (((instance_with_tracker (1920, 1080) (0, 0) (0, 0) [] sample_detector).video_tick
        (some (1920, 1080))).video_render ⟨true⟩ (sdk_accepting [] [] 0)).state).events =
      [event.process_filter_begin true, event.process_filter_end, event.cuda_context_enter,
        event.detector_track, event.draw, event.draw, event.draw] := by
  have hp : (((instance_with_tracker (1920, 1080) (0, 0) (0, 0) [] sample_detector).video_tick
      (some (1920, 1080))).captured.perform (sdk_accepting [] [] 0)).thrown = none := by
    simp [autoframing_instance.perform, autoframing_instance.captured,
      autoframing_instance.video_tick, instance_with_tracker, autoframing_instance.emit,
      autoframing_instance.nvidia_track, autoframing_instance.set_detector,
      facedetection.track, sample_detector, sdk_accepting, result.SUCCESS, outcome.ok,
      outcome.throw, gs.rendertarget.get_texture, facedetection.count, nvidia_track_loop]
  have h1 := (video_render_tracks_once ⟨true⟩ (sdk_accepting [] [] 0)
    ((instance_with_tracker (1920, 1080) (0, 0) (0, 0) [] sample_detector).video_tick
      (some (1920, 1080))) []).2.1 rfl rfl hp
  have h2 := (video_render_tracks_once ⟨true⟩ (sdk_accepting [] [] 0)
    (((instance_with_tracker (1920, 1080) (0, 0) (0, 0) [] sample_detector).video_tick
      (some (1920, 1080))).video_render ⟨true⟩ (sdk_accepting [] [] 0)).state
    [(⟨true⟩, sdk_accepting [] [] 0), (⟨true⟩, sdk_accepting [] [] 0)]).2.2.2.1 h1.2.1
  rw [h2.2.2.2.2, h1.2.2.2]
  rfl

/-! ### SDK paths, order of the regions -/

/-- C25 (code evaluation): with `NV_AR_SDK_PATH=/opt/nvidia/ar` and
`NVAR_MODEL_PATH=/opt/models` the constructor stores the model directory in `_sdk_path`
and leaves `_model_path` empty; with `NVAR_MODEL_PATH` unset the model path is
`/opt/nvidia/ar/models`. -/
theorem ar_ctor_model_path_in_sdk_path :
    ar.ctor getenv_both (fun _ => none) =
      Except.ok { _sdk_path := "/opt/models", _model_path := "" } ∧
    ar.get_model_path { _sdk_path := "/opt/models", _model_path := "" } ≠ "/opt/models" ∧
    ar.get_sdk_path { _sdk_path := "/opt/models", _model_path := "" } ≠ "/opt/nvidia/ar" ∧
    ar.ctor getenv_sdk_only (fun _ => none) =
      Except.ok { _sdk_path := "/opt/nvidia/ar", _model_path := "/opt/nvidia/ar/models" } := by
  refine ⟨?_, by decide, by decide, ?_⟩
  · simp [ar.ctor, getenv_both]
  · simp [ar.ctor, getenv_sdk_only, path_append]
    decide

theorem fbound.lower_eq (b : fbound) (v : ℚ) :
    (if b.gt v then fbound.fin v else b) =
      (match b with
       | fbound.inf => fbound.fin v
       | fbound.fin c => fbound.fin (min v c)) := by
  cases b with
  | inf => simp [fbound.gt]
  | fin c =>
    by_cases h : v < c
    · simp [fbound.gt, h, min_eq_left (le_of_lt h)]
    · simp [fbound.gt, h, min_eq_right (not_lt.mp h)]

theorem fbound.lower_comm (b : fbound) (v w : ℚ) :
    (if (if b.gt v then fbound.fin v else b).gt w then fbound.fin w
      else (if b.gt v then fbound.fin v else b)) =
    (if (if b.gt w then fbound.fin w else b).gt v then fbound.fin v
      else (if b.gt w then fbound.fin w else b)) := by
  rw [fbound.lower_eq b v, fbound.lower_eq b w, fbound.lower_eq, fbound.lower_eq]
  cases b with
  | inf => simp only [min_comm]
  | fin c => simp only [min_left_comm w v c]

theorem perform_boundary_step_comm (size : Nat × Nat) (b : boundary) (r1 r2 : rect) :
    perform_boundary_step size (perform_boundary_step size b r1) r2 =
      perform_boundary_step size (perform_boundary_step size b r2) r1 := by
  simp only [perform_boundary_step]
  rw [fbound.lower_comm b.left, fbound.lower_comm b.top, fbound.lower_comm b.right,
    fbound.lower_comm b.bottom]

/-- C26: region lists that are permutations of each other give the same boundary and the
same output frame. -/
theorem perform_frame_perm (size : Nat × Nat) (padding offset : ℚ × ℚ)
    (l1 l2 : List rect) (hp : l1.Perm l2) :
    perform_boundary size l1 = perform_boundary size l2 ∧
    perform_frame size padding offset l1 = perform_frame size padding offset l2 := by
  have hb : perform_boundary size l1 = perform_boundary size l2 :=
    List.Perm.foldl_eq' hp (fun x _ y _ z => perform_boundary_step_comm size z x y) _
  refine ⟨hb, ?_⟩
  simp only [perform_frame, hb, hp.length_eq]

/-- C26 (witness): two regions in either order. -/
theorem perform_frame_perm_witness :
    perform_frame (1920, 1080) (192, 108) (10, 0) [⟨800, 400, 200, 300⟩, ⟨100, 50, 80, 90⟩] =
      perform_frame (1920, 1080) (192, 108) (10, 0) [⟨100, 50, 80, 90⟩, ⟨800, 400, 200, 300⟩] :=
  (perform_frame_perm (1920, 1080) (192, 108) (10, 0) _ _ (List.Perm.swap _ _ [])).2

/-! ### Layout right after construction -/

theorem video_tick_layout (s : autoframing_instance) (target : Option (Nat × Nat)) :
    (s.video_tick target)._padding = s._padding ∧ (s.video_tick target)._offset = s._offset := by
  cases target <;> exact ⟨rfl, rfl⟩

theorem ticks_layout (l : List (Option (Nat × Nat))) :
    ∀ (s : autoframing_instance),
      (ticks l s)._padding = s._padding ∧ (ticks l s)._offset = s._offset := by
  induction l with
  | nil => intro s; exact ⟨rfl, rfl⟩
  | cons t l ih =>
    intro s
    have e : ticks (t :: l) s = ticks l (s.video_tick t) := rfl
    rw [e]
    obtain ⟨i1, i2⟩ := ih (s.video_tick t)
    obtain ⟨v1, v2⟩ := video_tick_layout s t
    exact ⟨i1.trans v1, i2.trans v2⟩

theorem nvidia_load_size (p : process) (s : autoframing_instance) :
    (s.nvidia_load p)._size = s._size := by
  have hu : ∀ t : autoframing_instance, t.nvidia_unload._size = t._size := by
    intro t
    unfold autoframing_instance.nvidia_unload
    exact (nvidia_destroy_same t).1
  unfold autoframing_instance.nvidia_load
  simp only []
  split_ifs <;> first | exact hu _ | rfl

theorem ctor_layout (scan : String → Option ℚ) (p : process) (k : sdk) (fresh : Bool)
    (settings : obs_data) :
    ( autoframing_instance.ctor scan p k fresh settings).thrown = none ∧
    ( autoframing_instance.ctor scan p k fresh settings).state._padding =
      (resolve_size (parse_text_as_size scan settings.Layout_Padding_X) 0,
       resolve_size (parse_text_as_size scan settings.Layout_Padding_Y) 0) ∧
    ( autoframing_instance.ctor scan p k fresh settings).state._offset =
      (resolve_size (parse_text_as_size scan settings.Layout_Offset_X) 0,
       resolve_size (parse_text_as_size scan settings.Layout_Offset_Y) 0) := by
  unfold autoframing_instance.ctor
  simp only []
  generalize hs0 : autoframing_instance.nvidia_load p _ = s0
  have hz : s0._size = (0, 0) := by
    rw [← hs0, nvidia_load_size]
  obtain ⟨u0, _, u2, u3⟩ := update_layout scan k s0 settings
  rw [hz] at u2 u3
  exact ⟨u0, u2, u3⟩

theorem resolve_size_zero_of_fraction (x : Bool × ℚ) (h : x.1 = true) : resolve_size x 0 = 0 := by
  simp [resolve_size, h]

/-- C27: the constructor returns, and every padding or offset text that parses as a
fraction (a number followed by a `%` anywhere in the text, or no number at all) resolves
to 0 right after construction, because the size is still `(0, 0)`, and is still 0 after
any run of ticks. -/
theorem ctor_resolves_percentages_to_zero (scan : String → Option ℚ) (p : process) (k : sdk)
    (fresh : Bool) (settings : obs_data) (l : List (Option (Nat × Nat))) :
    ( autoframing_instance.ctor scan p k fresh settings).thrown = none ∧
    ((parse_text_as_size scan settings.Layout_Padding_X).1 = true →
      ( autoframing_instance.ctor scan p k fresh settings).state._padding.1 = 0 ∧
      (ticks l ( autoframing_instance.ctor scan p k fresh settings).state)._padding.1 = 0) ∧
    ((parse_text_as_size scan settings.Layout_Padding_Y).1 = true →
      ( autoframing_instance.ctor scan p k fresh settings).state._padding.2 = 0 ∧
      (ticks l ( autoframing_instance.ctor scan p k fresh settings).state)._padding.2 = 0) ∧
    ((parse_text_as_size scan settings.Layout_Offset_X).1 = true →
      ( autoframing_instance.ctor scan p k fresh settings).state._offset.1 = 0 ∧
      (ticks l ( autoframing_instance.ctor scan p k fresh settings).state)._offset.1 = 0) ∧
    ((parse_text_as_size scan settings.Layout_Offset_Y).1 = true →
      ( autoframing_instance.ctor scan p k fresh settings).state._offset.2 = 0 ∧
      (ticks l ( autoframing_instance.ctor scan p k fresh settings).state)._offset.2 = 0) ∧
    (∀ (text : String) (v : ℚ), scan text = some v → '%' ∈ text.data →
      (parse_text_as_size scan text).1 = true) := by
  obtain ⟨c0, c1, c2⟩ := ctor_layout scan p k fresh settings
  obtain ⟨t1, t2⟩ := ticks_layout l ( autoframing_instance.ctor scan p k fresh settings).state
  rw [t1, t2, c1, c2]
  refine ⟨c0, ?_, ?_, ?_, ?_, ?_⟩
  · intro h; exact ⟨resolve_size_zero_of_fraction _ h, resolve_size_zero_of_fraction _ h⟩
  · intro h; exact ⟨resolve_size_zero_of_fraction _ h, resolve_size_zero_of_fraction _ h⟩
  · intro h; exact ⟨resolve_size_zero_of_fraction _ h, resolve_size_zero_of_fraction _ h⟩
  · intro h; exact ⟨resolve_size_zero_of_fraction _ h, resolve_size_zero_of_fraction _ h⟩
  · intro text v hv hp
    rw [parse_text_as_size_percent scan text v hv hp]

/-- C27 (witness): the default settings `10.0 %`, `10.0 %`, `0.0 %`, `-5.0 %`, then
ticks at 1920x1080 and 1280x720. -/
theorem ctor_resolves_percentages_to_zero_witness :
    (ticks [some (1920, 1080), some (1280, 720)]
      ( autoframing_instance.ctor sscanf_lf_table process_with_nvidia (sdk_accepting [] [] 0)
        false get_defaults2).state)._padding = (0, 0) ∧
    (ticks [some (1920, 1080), some (1280, 720)]
      ( autoframing_instance.ctor sscanf_lf_table process_with_nvidia (sdk_accepting [] [] 0)
        false get_defaults2).state)._offset = (0, 0) := by
  have h := ctor_resolves_percentages_to_zero sscanf_lf_table process_with_nvidia
    (sdk_accepting [] [] 0) false get_defaults2 [some (1920, 1080), some (1280, 720)]
  have p1 := h.2.2.2.2.2 "10.0 %" 10 rfl (by decide)
  have p2 := h.2.2.2.2.2 "0.0 %" 0 rfl (by decide)
  have p3 := h.2.2.2.2.2 "-5.0 %" (-5) rfl (by decide)
  exact ⟨Prod.ext (h.2.1 p1).2 (h.2.2.1 p1).2, Prod.ext (h.2.2.2.1 p2).2 (h.2.2.2.2.1 p3).2⟩

/-! ### Index safety, capacity, image buffer -/

theorem accept_length_le (l : List (rect_t × ℚ)) : (accept l).length ≤ l.length := by
  simp only [accept, List.length_map]
  exact List.length_filter_le _ _

/-- C28: for a detector state whose `count()` is at most 8 and within its two result
buffers, every `at()` call of the copy loop succeeds, the loop ends without exception
(so no access to the 8-slot region list was out of range), its write index and the
length of the resulting region list equal the number of accepted results, and that number
is at most `count()`. -/
theorem nvidia_track_index_safe (d : facedetection) (regions : List rect)
    (h8 : d.count ≤ ST_MAXIMUM_REGIONS) (hr : d.count ≤ d._rects.length)
    (hc : d.count ≤ d._rects_confidence.length) :
    (∀ idx, idx < d.count → ∃ rc c, facedetection.at d idx = Except.ok (rc, c)) ∧
    (nvidia_track_loop d d.count 0 0 (resize regions ST_MAXIMUM_REGIONS)).thrown = none ∧
    (nvidia_track_loop d d.count 0 0 (resize regions ST_MAXIMUM_REGIONS)).state.2
      = (accepted_regions d).length ∧
    (nvidia_track_loop d d.count 0 0 (resize regions ST_MAXIMUM_REGIONS)).state.2
      ≤ ST_MAXIMUM_REGIONS ∧
    (resize (nvidia_track_loop d d.count 0 0 (resize regions ST_MAXIMUM_REGIONS)).state.1
      (nvidia_track_loop d d.count 0 0 (resize regions ST_MAXIMUM_REGIONS)).state.2).length
      = (accepted_regions d).length ∧
    (accepted_regions d).length ≤ d.count := by
  obtain ⟨l1, l2, _, _⟩ := nvidia_track_loop_spec d d.count 0 0
    (resize regions ST_MAXIMUM_REGIONS) (by omega) hr hc (by rw [resize_length]; omega)
  simp only [List.drop_zero, Nat.zero_add] at l2
  have hle : (accepted_regions d).length ≤ d.count := by
    unfold accepted_regions
    refine le_trans (accept_length_le _) ?_
    rw [List.length_take]
    exact Nat.min_le_left _ _
  refine ⟨?_, l1, l2, ?_, ?_, hle⟩
  · intro idx hi
    exact ⟨_, _, at_eq d idx hi (by omega) (by omega)⟩
  · rw [l2]
    exact le_trans hle h8
  · rw [resize_length, l2]
    rfl

/-- C28 (witness): the tracker with one face in eight slots. -/
theorem nvidia_track_index_safe_witness :
    (nvidia_track_loop detector_with_one_face detector_with_one_face.count 0 0
      (resize [] ST_MAXIMUM_REGIONS)).thrown = none ∧
    (accepted_regions detector_with_one_face).length ≤ detector_with_one_face.count := by
  have h := nvidia_track_index_safe detector_with_one_face [] (by decide) (by decide)
    (by decide)
  exact ⟨h.2.1, h.2.2.2.2.2⟩

theorem set_limit_fields (k : sdk) (d : facedetection) (n : Nat)
    (hl : d._loaded = false) (hn : n ≠ 0) :
    (d.set_limit k n).state._bboxes = { current := 0, maximum := n % 2 ^ 8 } ∧
    (d.set_limit k n).state._rects.length = n ∧
    (d.set_limit k n).state._rects_confidence.length = n := by
  unfold facedetection.set_limit
  simp only [hl, hn, Bool.false_eq_true, if_false]
  split_ifs <;> simp only [outcome.throw, outcome.ok, List.length_replicate] <;>
    exact ⟨trivial, trivial, trivial⟩

/-- C29 (counterexample): `set_limit(256)` on a tracker that is not loaded returns with 256
slots in both buffers and `maximum` equal to 0. -/
theorem set_limit_256_truncates :
    sample_detector._loaded = false ∧
    (sample_detector.set_limit (sdk_accepting [] [] 0) 256).state._bboxes.maximum = 0 ∧
    (sample_detector.set_limit (sdk_accepting [] [] 0) 256).state._rects.length = 256 ∧
    (sample_detector.set_limit (sdk_accepting [] [] 0) 256).state._rects_confidence.length
      = 256 := by
  obtain ⟨h1, h2, h3⟩ :=
    set_limit_fields (sdk_accepting [] [] 0) sample_detector 256 rfl (by decide)
  refine ⟨rfl, ?_, h2, h3⟩
  rw [h1]
  decide

/-- C29 (amended): for `1 <= n <= 255`, after `set_limit(n)` on a tracker that is not loaded
`maximum` equals `n` and the length of both buffers, and `count()` is 0, whether or not the
SDK accepts the new buffers. -/
theorem set_limit_capacity (k : sdk) (d : facedetection) (n : Nat)
    (hl : d._loaded = false) (h1 : 1 ≤ n) (h255 : n ≤ 255) :
    (d.set_limit k n).state._bboxes.maximum = n ∧
    (d.set_limit k n).state._rects.length = n ∧
    (d.set_limit k n).state._rects_confidence.length = n ∧
    (d.set_limit k n).state.count = 0 := by
  obtain ⟨f1, f2, f3⟩ := set_limit_fields k d n hl (by omega)
  have hm : n % 2 ^ 8 = n := Nat.mod_eq_of_lt (by omega)
  refine ⟨?_, f2, f3, ?_⟩
  · rw [f1]; exact hm
  · unfold facedetection.count
    rw [f1]

/-- C29 (witness): the limit 8 the filter configures. -/
theorem set_limit_capacity_witness :
    (sample_detector.set_limit (sdk_accepting [] [] 0) 8).state._bboxes.maximum = 8 ∧
    (sample_detector.set_limit (sdk_accepting [] [] 0) 8).state._rects.length = 8 :=
  ⟨(set_limit_capacity (sdk_accepting [] [] 0) sample_detector 8 rfl (by decide)
      (by decide)).1,
   (set_limit_capacity (sdk_accepting [] [] 0) sample_detector 8 rfl (by decide)
      (by decide)).2.1⟩

/-- C30 (code evaluation): for a `GS_R16` texture of 4x2 pixels the constructor computes a
pitch of 4 bytes and allocates 8 bytes, while one row of 4 one-component 16-bit pixels
takes 8 bytes. Every format the first switch accepts is accepted by the second. -/
theorem gstexture_pitch_ignores_component_size :
    gstexture.ctor result.SUCCESS ⟨4, 2, gs.color_format.GS_R16⟩ =
      Except.ok { _texture := ⟨4, 2, gs.color_format.GS_R16⟩, _memory := 8, pitch := 4,
                  pixel_format := cv_pixel_format.Y,
                  component_type := cv_component_type.UINT16 } ∧
    4 * cv_pixel_format.Y.components * cv_component_type.UINT16.bytes = 8 ∧
    (∀ f : gs.color_format, (gstexture.detect_pixel_format f).isSome = true →
      (gstexture.detect_component_type f).isSome = true) := by
  refine ⟨?_, rfl, ?_⟩
  · simp [gstexture.ctor, gstexture.detect_pixel_format, gstexture.detect_component_type,
      result.SUCCESS]
  · intro f
    cases f <;> simp [gstexture.detect_pixel_format, gstexture.detect_component_type]

end streamfx.filter.autoframing
